import Mathlib

/-!
# SkyBox Explorer — verification of the Saved Messages virtual filesystem frontend

Shallow embedding of the TypeScript source of `src/pages/ExplorerPage.tsx`,
`src/lib/thumbnail-src.ts` and the `FileGrid` component (the revision that
matches the props passed by the current `ExplorerPage` and that implements the
broken-thumbnail retry).  JavaScript strings are modelled as `List Char`
(named `Str` below); JavaScript objects keyed by strings are modelled as
association lists; the Tauri `invoke` calls are modelled as emitted commands
whose results are passed in as explicit parameters.  The environment-dependent
parts of `resolveThumbnailSrc` (`convertFileSrc`, `window.__TAURI_INTERNALS__`)
are modelled in the plain-browser environment where both are absent.
-/

namespace SkyBox

/-- JavaScript strings, modelled as lists of characters. -/
abbrev Str := List Char

/-- `path.replace(/\\/g, "/")` — `normalizePath` in ExplorerPage.tsx. -/
def normalizePath (path : Str) : Str :=
  path.map (fun c => if c = '\\' then '/' else c)

/-- `s.replace(/\/+$/, "")` — drop every trailing slash. -/
def stripTrailingSlashes (s : Str) : Str :=
  (s.reverse.dropWhile (fun c => c = '/')).reverse

/-- JavaScript `String.prototype.trim`. -/
def trimStr (s : Str) : Str :=
  ((s.dropWhile Char.isWhitespace).reverse.dropWhile Char.isWhitespace).reverse

/-- JavaScript `String.prototype.toLowerCase`, on the characters. -/
def lowerStr (s : Str) : Str :=
  s.map Char.toLower

/-- `needle` occurs as a contiguous substring of `hay` —
JavaScript `hay.includes(needle)`. -/
def includesStr (hay needle : Str) : Bool :=
  hay.tails.any (fun t => needle.isPrefixOf t)

/-- `getPathName` in ExplorerPage.tsx: last non-empty `/`-separated segment,
or the normalized string itself when there is none. -/
def getPathName (path : Str) : Str :=
  let normalized := stripTrailingSlashes (normalizePath path)
  let parts := (normalized.splitOn '/').filter (fun p => p ≠ [])
  match parts.getLast? with
  | some last => last
  | none => normalized

/-- `getParentPath` in ExplorerPage.tsx: everything before the last `/` of the
normalized path, or `""` when the last `/` is at index `≤ 0` (this includes
the case of no `/` at all, where `lastIndexOf` returns `-1`). -/
def getParentPath (path : Str) : Str :=
  let normalized := stripTrailingSlashes (normalizePath path)
  let fromLastSlash := normalized.reverse.dropWhile (fun c => c ≠ '/')
  if fromLastSlash.length ≤ 1 then [] else (fromLastSlash.drop 1).reverse

/-- `joinPath` in ExplorerPage.tsx. -/
def joinPath (base name : Str) : Str :=
  let normalizedBase := stripTrailingSlashes (normalizePath base)
  if normalizedBase = [] then name else normalizedBase ++ '/' :: name

/-- `RECYCLE_BIN_VIRTUAL_PATH`. -/
def RECYCLE_BIN_VIRTUAL_PATH : Str := "tg://saved/Recycle Bin".data

/-- `SAVED_ITEMS_PAGE_SIZE`. -/
def SAVED_ITEMS_PAGE_SIZE : Nat := 50

/-- `isVirtualPath`: `path.startsWith("tg://")`. -/
def isVirtualPath (path : Str) : Bool :=
  "tg://".data.isPrefixOf path

/-- `isSavedVirtualFolderPath`: `path === "tg://saved" || path.startsWith("tg://saved/")`. -/
def isSavedVirtualFolderPath (path : Str) : Bool :=
  path = "tg://saved".data || "tg://saved/".data.isPrefixOf path

/-- `isSavedVirtualFilePath`: `path.startsWith("tg://msg/")`. -/
def isSavedVirtualFilePath (path : Str) : Bool :=
  "tg://msg/".data.isPrefixOf path

/-- `isSavedVirtualItemPath`. -/
def isSavedVirtualItemPath (path : Str) : Bool :=
  isSavedVirtualFolderPath path || isSavedVirtualFilePath path

/-- `isRecycleBinPath`. -/
def isRecycleBinPath (path : Str) : Bool :=
  path = RECYCLE_BIN_VIRTUAL_PATH ||
    (RECYCLE_BIN_VIRTUAL_PATH ++ ['/']).isPrefixOf path

/-- `virtualToSavedPath` in ExplorerPage.tsx.  The regular expression
`/^tg:\/\/saved\/?/` removes a leading `tg://saved` together with one
following slash when present; `/\/+$/` then removes trailing slashes. -/
def virtualToSavedPath (virtualPath : Str) : Str :=
  if virtualPath = "tg://saved".data then "/Home".data
  else
    let afterRoot :=
      if "tg://saved/".data.isPrefixOf virtualPath then virtualPath.drop 11
      else if "tg://saved".data.isPrefixOf virtualPath then virtualPath.drop 10
      else virtualPath
    let relativePath := stripTrailingSlashes afterRoot
    if relativePath = [] then "/Home".data else "/Home/".data ++ relativePath

/-- `savedToVirtualPath` in ExplorerPage.tsx. -/
def savedToVirtualPath (savedPath : Str) : Str :=
  let normalized := stripTrailingSlashes (normalizePath savedPath)
  if normalized = "/Home".data then "tg://saved".data
  else if "/Home/".data.isPrefixOf normalized then
    "tg://saved/".data ++ normalized.drop 6
  else "tg://saved".data

/-- `URL_PREFIXES` in thumbnail-src.ts. -/
def URL_PREFIXES : List Str :=
  ["data:".data, "http://".data, "https://".data, "asset://".data,
   "tauri://".data, "asset:".data, "blob:".data, "file://".data]

/-- `resolveThumbnailSrc` in thumbnail-src.ts, modelled in an environment
without Tauri internals: `convertFileSrc` is unavailable (its branch falls
through via the surrounding `try`/`catch`) and `window.__TAURI_INTERNALS__`
is absent, so a non-URL input resolves to `undefined`. -/
def resolveThumbnailSrc (thumbnail : Option Str) : Option Str :=
  match thumbnail with
  | none => none
  | some t =>
    let value := trimStr t
    if value = [] then none
    else if URL_PREFIXES.any (fun p => p.isPrefixOf value) then some value
    else none

/-- `extensionFromFileName` in ExplorerPage.tsx. -/
def extensionFromFileName (fileName : Str) : Option Str :=
  let parts := fileName.splitOn '.'
  if parts.length < 2 then none
  else (parts.getLast?).map lowerStr

/-- The fields of `FileItem` (FileRow.tsx) used by ExplorerPage. -/
structure FileItem where
  name : Str
  path : Str
  isDirectory : Bool
  size : Option Nat := none
  modifiedAt : Option Str := none
  extension : Option Str := none
  messageId : Option Nat := none
  thumbnail : Option Str := none
deriving Repr, DecidableEq

/-- `TelegramSavedItem` rows returned by the backend. -/
structure TelegramSavedItem where
  chat_id : Int
  message_id : Nat
  thumbnail : Option Str
  file_type : Str
  file_unique_id : Str
  file_size : Nat
  file_name : Str
  file_caption : Option Str
  file_path : Str
  modified_date : Str
  owner_id : Str
deriving Repr, DecidableEq

/-- `TelegramSavedItemsPage`. -/
structure TelegramSavedItemsPage where
  items : List TelegramSavedItem
  has_more : Bool
  next_offset : Nat
deriving Repr, DecidableEq

/-- `TelegramIndexSavedMessagesResult`. -/
structure TelegramIndexSavedMessagesResult where
  total_new_messages : Nat
deriving Repr, DecidableEq

/-- `SavedPathCacheEntry`. -/
structure SavedPathCacheEntry where
  items : List FileItem
  nextOffset : Nat
  hasMore : Bool
  isCompleteSnapshot : Bool
deriving Repr, DecidableEq

/-- `FileEntry` rows returned by `fs_list_dir`. -/
structure FileEntry where
  name : Str
  path : Str
  is_directory : Bool
  size : Option Nat
  modified_at : Option Str
  extension : Option Str
deriving Repr, DecidableEq

/-- `convertFileEntryToFileItem`. -/
def convertFileEntryToFileItem (entry : FileEntry) : FileItem :=
  { name := entry.name, path := entry.path, isDirectory := entry.is_directory,
    size := entry.size, modifiedAt := entry.modified_at, extension := entry.extension }

/-- `savedItemToFileItem` in ExplorerPage.tsx.  `message_id || file_unique_id`
evaluates to `file_unique_id` exactly when `message_id` is `0` (falsy). -/
def savedItemToFileItem (item : TelegramSavedItem) : FileItem :=
  let resolvedName :=
    if trimStr item.file_name ≠ [] then item.file_name
    else if item.file_type = "image".data ∨ item.file_type = "video".data ∨
            item.file_type = "audio".data then
      item.file_type ++ '_' :: item.file_unique_id
    else
      "message_".data ++
        (if item.message_id = 0 then item.file_unique_id
         else (toString item.message_id).data)
  if item.file_type = "folder".data then
    { name := resolvedName,
      path := savedToVirtualPath (joinPath item.file_path resolvedName),
      isDirectory := true,
      modifiedAt := some item.modified_date }
  else
    { name := resolvedName,
      path := "tg://msg/".data ++ (toString item.message_id).data,
      isDirectory := false,
      size := some item.file_size,
      modifiedAt := some item.modified_date,
      extension := extensionFromFileName resolvedName,
      messageId := if item.message_id > 0 then some item.message_id else none,
      thumbnail := resolveThumbnailSrc item.thumbnail }

/-- `ClipboardMode`. -/
inductive ClipboardMode where
  | copy
  | cut
deriving Repr, DecidableEq

/-- `ExplorerClipboardItem`. -/
structure ExplorerClipboardItem where
  path : Str
  name : Str
  isDirectory : Bool
  mode : ClipboardMode
deriving Repr, DecidableEq

/-- The Tauri commands issued by the modelled code, with their payloads. -/
inductive Cmd where
  | tgIndexSavedMessages
  | tgListSavedItemsPage (filePath : Str) (offset : Nat) (limit : Nat)
  | tgListSavedItems (filePath : Str)
  | tgDeleteSavedItemPermanently (sourcePath : Str)
  | tgMoveSavedItemToRecycleBin (sourcePath : Str)
  | tgRestoreSavedItem (sourcePath : Str)
  | tgCreateSavedFolder (parentPath : Str) (folderName : Str)
  | tgRenameSavedItem (sourcePath : Str) (newName : Str)
  | tgMoveSavedItem (sourcePath : Str) (destinationPath : Str)
  | tgUploadFileToSavedMessages (fileName : Str) (filePath : Str)
  | tgPrefetchMessageThumbnails (messageIds : List Nat)
  | tgGetMessageThumbnail (messageId : Nat)
  | fsListDir (path : Str)
  | fsDelete (path : Str)
  | fsCreateDir (path : Str)
  | renameFile (oldPath : Str) (newPath : Str)
  | copyFile (source : Str) (destination : Str)
  | moveFile (source : Str) (destination : Str)
  | dbAddRecentPath (path : Str)
deriving Repr, DecidableEq

/-- Observable steps a handler performs, in program order.  `reload` stands
for the `await loadDirectory(path, { force })` call made by the mutation
handlers; `cacheReset` for `savedPathCacheRef.current = {}`; `toastError`
for a destructive toast and `toastOk` for a non-destructive one. -/
inductive HStep where
  | invoke (c : Cmd)
  | cacheReset
  | reload (path : Str) (force : Bool)
  | toastError
  | toastOk
deriving Repr, DecidableEq

/-- The pagination cache `savedPathCacheRef.current`: a string-keyed record,
modelled as an association list where assignment prepends (and shadows). -/
abbrev SavedPathCache := List (Str × SavedPathCacheEntry)

/-- Read a key of the cache record. -/
def lookupCache : SavedPathCache → Str → Option SavedPathCacheEntry
  | [], _ => none
  | (k, v) :: rest, p => if k = p then some v else lookupCache rest p

/-- `savedPathCacheRef.current[path] = entry` — key assignment. -/
def setCache (c : SavedPathCache) (p : Str) (e : SavedPathCacheEntry) : SavedPathCache :=
  (p, e) :: c.filter (fun kv => kv.1 ≠ p)

/-- The ExplorerPage state relevant to the Saved Messages engine: the React
state variables and refs read or written by the modelled functions.
Purely presentational state (toast contents, progress percentages, history
stacks, dialog visibility) is omitted. -/
structure ExplorerState where
  currentPath : Str
  files : List FileItem
  search : Str
  savedPathCache : SavedPathCache
  savedItemsOffset : Nat
  hasMoreSavedItems : Bool
  isLoading : Bool
  isLoadingMoreSavedItems : Bool
  isSavedBackfillSyncing : Bool
  isSavedSyncComplete : Bool
  savedLoadMoreLastAttempt : Nat
  prefetchedThumbnailIds : List Nat
  selectedFile : Option FileItem
  deleteTarget : Option FileItem
  renameTarget : Option FileItem
  renameValue : Str
  newFolderName : Str
  clipboardItem : Option ExplorerClipboardItem
  contextMenuTarget : Option FileItem
deriving Repr, DecidableEq

/-- The state right after mounting ExplorerPage. -/
def initialExplorerState : ExplorerState :=
  { currentPath := "tg://saved".data
    files := []
    search := []
    savedPathCache := []
    savedItemsOffset := 0
    hasMoreSavedItems := false
    isLoading := false
    isLoadingMoreSavedItems := false
    isSavedBackfillSyncing := false
    isSavedSyncComplete := false
    savedLoadMoreLastAttempt := 0
    prefetchedThumbnailIds := []
    selectedFile := none
    deleteTarget := none
    renameTarget := none
    renameValue := []
    newFolderName := []
    clipboardItem := none
    contextMenuTarget := none }

/-- `prefetchThumbnailsForItems`: collect positive message ids not yet in
`prefetchedThumbnailIdsRef`, record them, and start one batched prefetch.
(The rollback on a failed batch is modelled by the prefetch trace machine
below, which owns the asynchronous completion.)  `prefetchBatch` is the batch
computation shared with that machine: `ref.current.has(id)` is membership in
the recorded id list. -/
def prefetchBatch (prefetched : List Nat) (items : List FileItem) : List Nat :=
  (((items.map (fun item => item.messageId)).filterMap id).filter
      (fun idv => 0 < idv)).filter
    (fun idv => idv ∉ prefetched)

/-- `prefetchThumbnailsForItems` wired into the explorer state. -/
def prefetchThumbnailsForItems (st : ExplorerState) (items : List FileItem) :
    ExplorerState × List HStep :=
  let messageIds := prefetchBatch st.prefetchedThumbnailIds items
  if messageIds = [] then (st, [])
  else
    ({ st with prefetchedThumbnailIds := st.prefetchedThumbnailIds ++ messageIds },
     [HStep.invoke (Cmd.tgPrefetchMessageThumbnails messageIds)])

/-- `cacheSavedPath`. -/
def cacheSavedPath (cache : SavedPathCache) (path : Str) (items : List FileItem)
    (nextOffset : Nat) (hasMore : Bool) (isCompleteSnapshot : Bool) : SavedPathCache :=
  setCache cache path
    { items := items, nextOffset := nextOffset, hasMore := hasMore,
      isCompleteSnapshot := isCompleteSnapshot }

/-- `applySavedPathCache`: serve a cached entry for `path`; the `Bool` is the
return value (cache hit). -/
def applySavedPathCache (st : ExplorerState) (path : Str) :
    ExplorerState × List HStep × Bool :=
  match lookupCache st.savedPathCache path with
  | none => (st, [], false)
  | some cacheEntry =>
    let st1 := { st with
      files := cacheEntry.items
      savedItemsOffset := cacheEntry.nextOffset
      hasMoreSavedItems := cacheEntry.hasMore
      currentPath := path }
    let pr := prefetchThumbnailsForItems st1 cacheEntry.items
    (pr.1, pr.2, true)

/-- `loadSavedItemsPage(path, offset, append)`.  The backend reply to
`tg_list_saved_items_page` is passed in as `res`; a `.error` models the
`invoke` promise rejecting, which the function lets propagate (`none`). -/
def loadSavedItemsPage (st : ExplorerState) (path : Str) (offset : Nat)
    (append : Bool) (res : Except Unit TelegramSavedItemsPage) :
    Option ExplorerState × List HStep :=
  let cmd := HStep.invoke
    (Cmd.tgListSavedItemsPage (virtualToSavedPath path) offset SAVED_ITEMS_PAGE_SIZE)
  match res with
  | .error _ => (none, [cmd])
  | .ok result =>
    let pageItems := result.items.map savedItemToFileItem
    let mergedItems := if append then st.files ++ pageItems else pageItems
    let st1 := { st with
      files := mergedItems
      savedItemsOffset := result.next_offset
      hasMoreSavedItems := result.has_more
      currentPath := path
      savedPathCache :=
        cacheSavedPath st.savedPathCache path mergedItems result.next_offset
          result.has_more false }
    let pr := prefetchThumbnailsForItems st1 mergedItems
    (some pr.1, cmd :: pr.2)

/-- `loadAllSavedItems(path)`: the unpaginated full listing. -/
def loadAllSavedItems (st : ExplorerState) (path : Str)
    (res : Except Unit (List TelegramSavedItem)) :
    Option ExplorerState × List HStep :=
  let cmd := HStep.invoke (Cmd.tgListSavedItems (virtualToSavedPath path))
  match res with
  | .error _ => (none, [cmd])
  | .ok result =>
    let allItems := result.map savedItemToFileItem
    let st1 := { st with
      files := allItems
      savedItemsOffset := allItems.length
      hasMoreSavedItems := false
      currentPath := path
      savedPathCache :=
        cacheSavedPath st.savedPathCache path allItems allItems.length false true }
    let pr := prefetchThumbnailsForItems st1 allItems
    (some pr.1, cmd :: pr.2)

/-- `loadMoreSavedItems`, called from the scroll handler.  `now` is
`Date.now()`; `pageRes` is the backend reply used if a fetch is issued. -/
def loadMoreSavedItems (st : ExplorerState) (now : Nat)
    (pageRes : Except Unit TelegramSavedItemsPage) : ExplorerState × List HStep :=
  if ¬ ("tg://saved".data.isPrefixOf st.currentPath) then (st, [])
  else if now - st.savedLoadMoreLastAttempt < 250 then (st, [])
  else
    let st0 := { st with savedLoadMoreLastAttempt := now }
    if st0.isLoading ∨ st0.isLoadingMoreSavedItems then (st0, [])
    else if st0.isSavedSyncComplete then (st0, [])
    else if ¬ st0.hasMoreSavedItems ∧ ¬ st0.isSavedBackfillSyncing then (st0, [])
    else
      let st1 := { st0 with isLoadingMoreSavedItems := true }
      match loadSavedItemsPage st1 st1.currentPath st1.savedItemsOffset true pageRes with
      | (some st2, steps) => ({ st2 with isLoadingMoreSavedItems := false }, steps)
      | (none, steps) =>
        ({ st1 with hasMoreSavedItems := false, isLoadingMoreSavedItems := false }, steps)

/-- `loadDirectory(path, options)`.  `pageRes`, `fullRes` and `realRes` are
the replies of the backend calls the various branches may make. -/
def loadDirectory (st : ExplorerState) (path : Str) (force : Bool)
    (pageRes : Except Unit TelegramSavedItemsPage)
    (fullRes : Except Unit (List TelegramSavedItem))
    (realRes : Except Unit (List FileEntry)) : ExplorerState × List HStep :=
  let fetchFresh : ExplorerState × List HStep :=
    let stL := { st with isLoading := true }
    if "tg://saved".data.isPrefixOf path then
      let st0 := { stL with savedItemsOffset := 0, hasMoreSavedItems := false }
      let loaded :=
        if st0.isSavedSyncComplete then loadAllSavedItems st0 path fullRes
        else loadSavedItemsPage st0 path 0 false pageRes
      match loaded with
      | (some st1, steps) => ({ st1 with isLoading := false }, steps)
      | (none, steps) => ({ st0 with isLoading := false }, steps ++ [HStep.toastError])
    else
      match realRes with
      | .ok result =>
        ({ stL with
            files := result.map convertFileEntryToFileItem
            currentPath := path
            savedItemsOffset := 0
            hasMoreSavedItems := false
            isLoading := false },
         [HStep.invoke (Cmd.fsListDir path), HStep.invoke (Cmd.dbAddRecentPath path)])
      | .error _ =>
        ({ stL with isLoading := false },
         [HStep.invoke (Cmd.fsListDir path), HStep.toastError])
  if "tg://saved".data.isPrefixOf path ∧ force = false then
    match lookupCache st.savedPathCache path with
    | some cacheEntry =>
      let hit := applySavedPathCache st path
      let st1 := hit.1
      if st1.isSavedSyncComplete ∧ cacheEntry.isCompleteSnapshot = false then
        match loadAllSavedItems st1 path fullRes with
        | (some st2, steps) => (st2, hit.2.1 ++ steps)
        | (none, steps) => (st1, hit.2.1 ++ steps)
      else (st1, hit.2.1)
    | none => fetchFresh
  else fetchFresh

/-- The startup Saved Messages sync: `indexSavedMessages` followed by the body
of `runSavedMessageSync` in the non-cancelled case.  `idxRes` is the reply to
`tg_index_saved_messages` (`none` models the caught rejection, after which
`indexSavedMessages` returns `null`); `fullRes` feeds the refresh. -/
def runSavedMessageSync (st : ExplorerState)
    (idxRes : Option TelegramIndexSavedMessagesResult)
    (fullRes : Except Unit (List TelegramSavedItem)) : ExplorerState × List HStep :=
  let idxCmd := HStep.invoke Cmd.tgIndexSavedMessages
  let stIdx :=
    match idxRes with
    | some result =>
      if 0 < result.total_new_messages then { st with isSavedSyncComplete := false }
      else st
    | none => st
  let st1 := { stIdx with
    isSavedSyncComplete := true
    hasMoreSavedItems := false
    isSavedBackfillSyncing := false }
  if "tg://saved".data.isPrefixOf st1.currentPath then
    let activePath := st1.currentPath
    let cacheEntry := lookupCache st1.savedPathCache activePath
    let totalNew := match idxRes with
      | some result => result.total_new_messages
      | none => 0
    let shouldRefreshVisibleSavedItems :=
      0 < totalNew ∨
        ¬ (∃ e, cacheEntry = some e ∧ e.isCompleteSnapshot = true)
    if shouldRefreshVisibleSavedItems then
      match loadAllSavedItems st1 activePath fullRes with
      | (some st2, steps) => (st2, idxCmd :: steps)
      | (none, steps) => (st1, idxCmd :: steps)
    else (st1, [idxCmd])
  else (st1, [idxCmd])

/-- The `setIsSavedBackfillSyncing(true)` performed when the startup sync
effect begins, before any `await`: UI events can interleave after it. -/
def beginSavedMessageSync (st : ExplorerState) : ExplorerState :=
  { st with isSavedBackfillSyncing := true }

/-- The `filteredFiles` memo. -/
def filteredFiles (currentPath : Str) (search : Str) (files : List FileItem) :
    List FileItem :=
  let query := lowerStr (trimStr search)
  files.filter (fun file =>
    if currentPath = "tg://saved".data ∧ file.isDirectory = true ∧
        file.path = RECYCLE_BIN_VIRTUAL_PATH then false
    else if query = [] then true
    else includesStr (lowerStr file.name) query)

/-- `canDropToTarget(sourcePath, target)`: the drag-and-drop guard.  It also
reads the component state `currentPath` and `files`. -/
def canDropToTarget (currentPath : Str) (files : List FileItem)
    (sourcePath : Str) (target : FileItem) : Bool :=
  if isRecycleBinPath currentPath then false
  else if target.isDirectory = false then false
  else
    let sourceItem := files.find? (fun file => file.path = sourcePath)
    let sourceIsSavedVirtual :=
      isSavedVirtualFolderPath sourcePath || isSavedVirtualFilePath sourcePath
    let targetIsSavedVirtualFolder := isSavedVirtualFolderPath target.path
    if sourceIsSavedVirtual || targetIsSavedVirtualFolder then
      if ¬ (sourceIsSavedVirtual = true ∧ targetIsSavedVirtualFolder = true) then false
      else if sourcePath = target.path then false
      else if isSavedVirtualFolderPath sourcePath ∧
          getParentPath sourcePath = target.path then false
      else if isSavedVirtualFolderPath sourcePath ∧
          (sourcePath ++ ['/']).isPrefixOf target.path then false
      else if isSavedVirtualFilePath sourcePath ∧ currentPath = target.path then false
      else if sourceItem = none ∧ isSavedVirtualFilePath sourcePath = false then false
      else true
    else if isVirtualPath sourcePath || isVirtualPath target.path then false
    else
      let normalizedSourcePath := normalizePath sourcePath
      let normalizedTargetPath := normalizePath target.path
      if normalizedSourcePath = normalizedTargetPath then false
      else if getParentPath normalizedSourcePath = normalizedTargetPath then false
      else if (∃ si, sourceItem = some si ∧ si.isDirectory = true) ∧
          (normalizedSourcePath ++ ['/']).isPrefixOf normalizedTargetPath then false
      else true

/-- `handleDelete`.  `res` is the reply of whichever delete/recycle command
the handler issues; `.error` models the rejected promise caught by the
handler's `catch`. -/
def handleDelete (st : ExplorerState) (res : Except Unit Unit) :
    ExplorerState × List HStep :=
  match st.deleteTarget with
  | none => (st, [])
  | some target =>
    let isSavedItem := isSavedVirtualItemPath target.path
    let cmd :=
      if isSavedItem then
        if isRecycleBinPath st.currentPath then Cmd.tgDeleteSavedItemPermanently target.path
        else Cmd.tgMoveSavedItemToRecycleBin target.path
      else Cmd.fsDelete target.path
    match res with
    | .error _ => (st, [HStep.invoke cmd, HStep.toastError])
    | .ok _ =>
      let st1 :=
        if isSavedItem then { st with savedPathCache := [] } else st
      let st2 := { st1 with
        deleteTarget := none
        selectedFile :=
          if st1.selectedFile.map (fun f => f.path) = some target.path then none
          else st1.selectedFile }
      (st2,
       [HStep.invoke cmd, HStep.toastOk] ++
         (if isSavedItem then [HStep.cacheReset] else []) ++
         [HStep.reload st.currentPath true])

/-- `handleRestoreFromRecycleBin`.  `targetFile` is the optional explicit
target (falling back to the selection). -/
def handleRestoreFromRecycleBin (st : ExplorerState) (targetFile : Option FileItem)
    (res : Except Unit Unit) : ExplorerState × List HStep :=
  let fileOpt := match targetFile with
    | some f => some f
    | none => st.selectedFile
  match fileOpt with
  | none => (st, [])
  | some file =>
    if ¬ isRecycleBinPath st.currentPath then (st, [])
    else if ¬ isSavedVirtualItemPath file.path then (st, [])
    else
      let cmd := Cmd.tgRestoreSavedItem file.path
      match res with
      | .error _ => (st, [HStep.invoke cmd, HStep.toastError])
      | .ok _ =>
        let st1 := { st with
          savedPathCache := []
          selectedFile :=
            if st.selectedFile.map (fun f => f.path) = some file.path then none
            else st.selectedFile }
        (st1,
         [HStep.invoke cmd, HStep.cacheReset, HStep.toastOk,
          HStep.reload st.currentPath true])

/-- `handleConfirmNewFolder`.  `(currentPath + "/" + name).replace("//", "/")`
replaces only the first occurrence; helper for the real-filesystem branch. -/
def replaceFirstDoubleSlash : Str → Str
  | [] => []
  | '/' :: '/' :: rest => '/' :: rest
  | c :: rest => c :: replaceFirstDoubleSlash rest

/-- `handleConfirmNewFolder`. -/
def handleConfirmNewFolder (st : ExplorerState) (res : Except Unit Unit) :
    ExplorerState × List HStep :=
  let folderName := trimStr st.newFolderName
  if folderName = [] then (st, [HStep.toastError])
  else
    let cmd :=
      if "tg://saved".data.isPrefixOf st.currentPath then
        Cmd.tgCreateSavedFolder (virtualToSavedPath st.currentPath) folderName
      else
        Cmd.fsCreateDir (replaceFirstDoubleSlash (st.currentPath ++ '/' :: folderName))
    match res with
    | .error _ => (st, [HStep.invoke cmd, HStep.toastError])
    | .ok _ =>
      let isSaved := "tg://saved".data.isPrefixOf st.currentPath
      let st1 :=
        if isSaved then { st with savedPathCache := [], newFolderName := [] }
        else { st with newFolderName := [] }
      (st1,
       [HStep.invoke cmd] ++
         (if isSaved then [HStep.cacheReset] else []) ++
         [HStep.toastOk, HStep.reload st.currentPath true])

/-- `handleConfirmRename`. -/
def handleConfirmRename (st : ExplorerState) (res : Except Unit Unit) :
    ExplorerState × List HStep :=
  match st.renameTarget with
  | none => (st, [])
  | some file =>
    let normalizedName := trimStr st.renameValue
    if normalizedName = [] then (st, [HStep.toastError])
    else if normalizedName = file.name then
      ({ st with renameTarget := none, renameValue := [] }, [])
    else if isSavedVirtualItemPath file.path then
      let cmd := Cmd.tgRenameSavedItem file.path normalizedName
      match res with
      | .error _ => (st, [HStep.invoke cmd, HStep.toastError])
      | .ok _ =>
        let st1 := { st with
          savedPathCache := []
          renameTarget := none
          renameValue := []
          selectedFile :=
            if st.selectedFile.map (fun f => f.path) = some file.path then
              some { file with name := normalizedName }
            else st.selectedFile }
        (st1,
         [HStep.invoke cmd, HStep.cacheReset, HStep.toastOk,
          HStep.reload st.currentPath true])
    else
      let directory := getParentPath file.path
      if directory = [] then (st, [HStep.toastError])
      else
        let cmd := Cmd.renameFile file.path (joinPath directory normalizedName)
        match res with
        | .error _ => (st, [HStep.invoke cmd, HStep.toastError])
        | .ok _ =>
          let st1 := { st with
            renameTarget := none
            renameValue := []
            selectedFile :=
              if st.selectedFile.map (fun f => f.path) = some file.path then
                some { file with name := normalizedName }
              else st.selectedFile }
          (st1, [HStep.invoke cmd, HStep.toastOk, HStep.reload st.currentPath true])

/-- `resolvePasteDestinationPath`. -/
def resolvePasteDestinationPath (st : ExplorerState) : Str :=
  match st.contextMenuTarget with
  | some targetFile => if targetFile.isDirectory then targetFile.path else st.currentPath
  | none => st.currentPath

/-- `handlePaste`. -/
def handlePaste (st : ExplorerState) (res : Except Unit Unit) :
    ExplorerState × List HStep :=
  match st.clipboardItem with
  | none => (st, [])
  | some clipboardItem =>
    let destinationFolderPath := resolvePasteDestinationPath st
    let sourcePath := clipboardItem.path
    let sourceName := clipboardItem.name
    if destinationFolderPath = [] then (st, [])
    else if isRecycleBinPath destinationFolderPath then (st, [HStep.toastError])
    else
      let sourceIsSaved := isSavedVirtualItemPath sourcePath
      let destinationIsSaved := isSavedVirtualFolderPath destinationFolderPath
      if sourceIsSaved || destinationIsSaved then
        if ¬ (sourceIsSaved = true ∧ destinationIsSaved = true) then
          (st, [HStep.toastError])
        else
          let cmd := Cmd.tgMoveSavedItem sourcePath destinationFolderPath
          match res with
          | .error _ => (st, [HStep.invoke cmd, HStep.toastError])
          | .ok _ =>
            let st1 := { st with clipboardItem := none, savedPathCache := [] }
            (st1,
             [HStep.invoke cmd, HStep.cacheReset, HStep.reload st.currentPath true,
              HStep.toastOk])
      else if isVirtualPath sourcePath || isVirtualPath destinationFolderPath then
        (st, [HStep.toastError])
      else
        let destinationPath := joinPath destinationFolderPath sourceName
        if normalizePath sourcePath = normalizePath destinationPath then
          (st, [HStep.toastOk])
        else
          match clipboardItem.mode with
          | .copy =>
            if clipboardItem.isDirectory then (st, [HStep.toastError])
            else
              let cmd := Cmd.copyFile sourcePath destinationPath
              match res with
              | .error _ => (st, [HStep.invoke cmd, HStep.toastError])
              | .ok _ =>
                (st, [HStep.invoke cmd, HStep.toastOk, HStep.reload st.currentPath true])
          | .cut =>
            let cmd := Cmd.moveFile sourcePath destinationPath
            match res with
            | .error _ => (st, [HStep.invoke cmd, HStep.toastError])
            | .ok _ =>
              let st1 := { st with
                clipboardItem := none
                selectedFile :=
                  if st.selectedFile.map (fun f => f.path) = some sourcePath then none
                  else st.selectedFile }
              (st1, [HStep.invoke cmd, HStep.toastOk, HStep.reload st.currentPath true])

/-- `handleItemDrop`.  `sourcePathOpt` is `getDraggedSourcePath(event)`. -/
def handleItemDrop (st : ExplorerState) (sourcePathOpt : Option Str)
    (target : FileItem) (res : Except Unit Unit) : ExplorerState × List HStep :=
  match sourcePathOpt with
  | none => (st, [])
  | some sourcePath =>
    if ¬ canDropToTarget st.currentPath st.files sourcePath target then (st, [])
    else if isRecycleBinPath st.currentPath then (st, [])
    else if (isSavedVirtualFolderPath sourcePath || isSavedVirtualFilePath sourcePath) &&
        isSavedVirtualFolderPath target.path then
      let cmd := Cmd.tgMoveSavedItem sourcePath target.path
      match res with
      | .error _ => (st, [HStep.invoke cmd, HStep.toastError])
      | .ok _ =>
        let st1 := { st with
          savedPathCache := []
          selectedFile :=
            if st.selectedFile.map (fun f => f.path) = some sourcePath then none
            else st.selectedFile }
        (st1,
         [HStep.invoke cmd, HStep.toastOk, HStep.cacheReset,
          HStep.reload st.currentPath true])
    else
      let destinationPath := joinPath target.path (getPathName sourcePath)
      let cmd := Cmd.moveFile sourcePath destinationPath
      match res with
      | .error _ => (st, [HStep.invoke cmd, HStep.toastError])
      | .ok _ =>
        let st1 := { st with
          selectedFile :=
            if st.selectedFile.map (fun f => f.path) = some sourcePath then none
            else st.selectedFile }
        (st1, [HStep.invoke cmd, HStep.toastOk, HStep.reload st.currentPath true])

/-- `handleUploadFiles`: `uploads` pairs each dropped file name with whether
its `tg_upload_file_to_saved_messages` call succeeded. -/
def handleUploadFiles (st : ExplorerState) (uploads : List (Str × Bool)) :
    ExplorerState × List HStep :=
  if uploads = [] then (st, [])
  else if ¬ ("tg://saved".data.isPrefixOf st.currentPath) then
    (st, [HStep.toastError])
  else if isRecycleBinPath st.currentPath then (st, [HStep.toastError])
  else
    let invokes := uploads.map (fun u =>
      HStep.invoke
        (Cmd.tgUploadFileToSavedMessages u.1 (virtualToSavedPath st.currentPath)))
    let uploadedCount := (uploads.filter (fun u => u.2 = true)).length
    let failedCount := (uploads.filter (fun u => u.2 = false)).length
    let (st1, successSteps) :=
      if 0 < uploadedCount then
        ({ st with savedPathCache := [] },
         [HStep.cacheReset, HStep.reload st.currentPath true, HStep.toastOk])
      else (st, [])
    let failSteps := if 0 < failedCount then [HStep.toastError] else []
    (st1, invokes ++ successSteps ++ failSteps)

/-!
## Asynchronous thumbnail machinery

The thumbnail prefetch (`prefetchThumbnailsForItems` and its `catch`
rollback) and the `FileGridItem` broken-thumbnail retry run as independent
asynchronous tasks.  They are modelled as small trace machines whose events
interleave the start of a batched prefetch, the completion (success or
failure) of an in-flight batch, and the grid item lifecycle.
-/

/-- State owned by the prefetch logic: the recorded ids
(`prefetchedThumbnailIdsRef.current`) and the batches currently in flight. -/
structure PrefetchState where
  prefetched : List Nat
  outstanding : List (List Nat)
deriving Repr, DecidableEq

/-- Events of the prefetch machine: a call to `prefetchThumbnailsForItems`,
or the settlement of one in-flight `tg_prefetch_message_thumbnails` batch
(on failure the `catch` deletes the batch's ids from the record). -/
inductive PrefetchEvent where
  | start (items : List FileItem)
  | settle (batch : List Nat) (success : Bool)
deriving Repr, DecidableEq

/-- One step of the prefetch machine. -/
def prefetchStep (s : PrefetchState) : PrefetchEvent → PrefetchState
  | .start items =>
    let batch := prefetchBatch s.prefetched items
    if batch = [] then s
    else
      { prefetched := s.prefetched ++ batch
        outstanding := s.outstanding ++ [batch] }
  | .settle batch success =>
    if batch ∈ s.outstanding then
      { prefetched :=
          if success then s.prefetched
          else s.prefetched.filter (fun idv => idv ∉ batch)
        outstanding := s.outstanding.erase batch }
    else s

/-- Run the prefetch machine from the initial (empty) state. -/
def runPrefetch (events : List PrefetchEvent) : PrefetchState :=
  events.foldl prefetchStep { prefetched := [], outstanding := [] }

/-- How many in-flight batches contain a given message id. -/
def countContaining (idv : Nat) (batches : List (List Nat)) : Nat :=
  (batches.filter (fun b => idv ∈ b)).length

/-- Component state of `FileGridItem` (FileGrid revision matching the props
passed by the current ExplorerPage): the rendered file, the thumbnail URL
and the `hasRetriedBrokenThumbnail` guard. -/
structure FileGridItemState where
  file : FileItem
  thumbUrl : Option Str
  hasRetriedBrokenThumbnail : Bool
deriving Repr, DecidableEq

/-- Mounting `FileGridItem` (its `useEffect` on `file.messageId` /
`file.thumbnail`): the thumbnail URL is re-resolved and the retry guard is
reset. -/
def initFileGridItem (file : FileItem) : FileGridItemState :=
  { file := file
    thumbUrl := resolveThumbnailSrc file.thumbnail
    hasRetriedBrokenThumbnail := false }

/-- `refetchThumbnail` in `FileGridItem`.  `res` is the
`tg_get_message_thumbnail` reply (`.error` models the caught rejection).
`!file.messageId` is truthy for a missing or zero id. -/
def refetchThumbnail (st : FileGridItemState) (res : Except Unit (Option Str)) :
    FileGridItemState × List HStep :=
  match st.file.messageId with
  | none => ({ st with thumbUrl := none }, [])
  | some mid =>
    if mid = 0 then ({ st with thumbUrl := none }, [])
    else if st.hasRetriedBrokenThumbnail then ({ st with thumbUrl := none }, [])
    else
      let st1 := { st with hasRetriedBrokenThumbnail := true }
      let cmd := HStep.invoke (Cmd.tgGetMessageThumbnail mid)
      match res with
      | .error _ => ({ st1 with thumbUrl := none }, [cmd])
      | .ok result =>
        match resolveThumbnailSrc result with
        | some resolved => ({ st1 with thumbUrl := some resolved }, [cmd])
        | none => ({ st1 with thumbUrl := none }, [cmd])

/-- The `<img onError>` callback: it can only fire while an `img` is
rendered, i.e. while `thumbUrl` is set. -/
def onImgError (st : FileGridItemState) (res : Except Unit (Option Str)) :
    FileGridItemState × List HStep :=
  match st.thumbUrl with
  | none => (st, [])
  | some _ => refetchThumbnail st res

/-- A sequence of broken-render reports against one mounted grid item. -/
def runImgErrors (g : FileGridItemState) :
    List (Except Unit (Option Str)) → FileGridItemState × List HStep
  | [] => (g, [])
  | res :: rest =>
    let step := onImgError g res
    let tail := runImgErrors step.1 rest
    (tail.1, step.2 ++ tail.2)

/-- Session-level state for thumbnail fetching: one grid item slot (the
component may mount, unmount and remount during the session) plus the
prefetch record. -/
structure ThumbSessionState where
  gridItem : Option FileGridItemState
  prefetchedThumbnailIds : List Nat
deriving Repr, DecidableEq

/-- Session events touching thumbnails for the modelled grid slot. -/
inductive ThumbEvent where
  | gridMount (file : FileItem)
  | gridUnmount
  | gridImgError (res : Except Unit (Option Str))
  | prefetch (items : List FileItem)
deriving Repr

/-- One session step, returning the steps (fetch commands) it emits. -/
def thumbStep (s : ThumbSessionState) : ThumbEvent → ThumbSessionState × List HStep
  | .gridMount file => ({ s with gridItem := some (initFileGridItem file) }, [])
  | .gridUnmount => ({ s with gridItem := none }, [])
  | .gridImgError res =>
    match s.gridItem with
    | none => (s, [])
    | some g =>
      let step := onImgError g res
      ({ s with gridItem := some step.1 }, step.2)
  | .prefetch items =>
    let batch := prefetchBatch s.prefetchedThumbnailIds items
    if batch = [] then (s, [])
    else
      ({ s with prefetchedThumbnailIds := s.prefetchedThumbnailIds ++ batch },
       [HStep.invoke (Cmd.tgPrefetchMessageThumbnails batch)])

/-- Run a session trace from a given state, accumulating emitted steps. -/
def runThumbSessionFrom (s : ThumbSessionState) :
    List ThumbEvent → ThumbSessionState × List HStep
  | [] => (s, [])
  | e :: rest =>
    let step := thumbStep s e
    let tail := runThumbSessionFrom step.1 rest
    (tail.1, step.2 ++ tail.2)

/-- Run a session trace from the initial state (nothing mounted, nothing
prefetched yet). -/
def runThumbSession (events : List ThumbEvent) : ThumbSessionState × List HStep :=
  runThumbSessionFrom { gridItem := none, prefetchedThumbnailIds := [] } events

/-- Number of thumbnail fetch attempts for a message id among emitted steps:
single-id fetches for that id plus batched prefetches containing it. -/
def fetchAttemptsFor (mid : Nat) (steps : List HStep) : Nat :=
  (steps.filter (fun s =>
    match s with
    | HStep.invoke (Cmd.tgGetMessageThumbnail m) => m = mid
    | HStep.invoke (Cmd.tgPrefetchMessageThumbnails ids) => mid ∈ ids
    | _ => false)).length

/-!
## Shared lemmas
-/

theorem tgMsgData : "tg://msg/".data = ['t','g',':','/','/','m','s','g','/'] := rfl

theorem tgSavedData : "tg://saved".data = ['t','g',':','/','/','s','a','v','e','d'] := rfl

theorem tgSavedSlashData :
    "tg://saved/".data = ['t','g',':','/','/','s','a','v','e','d','/'] := rfl

theorem homeData : "/Home".data = ['/','H','o','m','e'] := rfl

theorem homeSlashData : "/Home/".data = ['/','H','o','m','e','/'] := rfl

/-- A Saved Messages file path (`tg://msg/…`), even extended on the right,
is never a Saved Messages folder path: the prefixes differ at `m`/`s`. -/
theorem savedFile_append_not_folder {p : Str} (h : isSavedVirtualFilePath p = true)
    (q : Str) : isSavedVirtualFolderPath (p ++ q) = false := by
  unfold isSavedVirtualFilePath at h
  rw [List.isPrefixOf_iff_prefix] at h
  obtain ⟨t, rfl⟩ := h
  unfold isSavedVirtualFolderPath
  rw [Bool.or_eq_false_iff]
  constructor
  · simp [tgMsgData, tgSavedData]
  · rw [Bool.eq_false_iff]
    intro hpre
    rw [List.isPrefixOf_iff_prefix] at hpre
    obtain ⟨u, hu⟩ := hpre
    simp [tgMsgData, tgSavedSlashData] at hu

/-- Saved folder paths are virtual (`tg://`-prefixed). -/
theorem savedFolder_isVirtual {p : Str} (h : isSavedVirtualFolderPath p = true) :
    isVirtualPath p = true := by
  unfold isSavedVirtualFolderPath at h
  unfold isVirtualPath
  rw [Bool.or_eq_true] at h
  rw [List.isPrefixOf_iff_prefix]
  rcases h with h | h
  · rw [decide_eq_true_eq] at h
    subst h
    decide
  · rw [List.isPrefixOf_iff_prefix] at h
    exact List.IsPrefix.trans (by decide) h

/-- Saved file paths are virtual. -/
theorem savedFile_isVirtual {p : Str} (h : isSavedVirtualFilePath p = true) :
    isVirtualPath p = true := by
  unfold isSavedVirtualFilePath at h
  unfold isVirtualPath
  rw [List.isPrefixOf_iff_prefix] at h ⊢
  exact List.IsPrefix.trans (by decide) h

/-- Saved item paths are virtual. -/
theorem savedItem_isVirtual {p : Str} (h : isSavedVirtualItemPath p = true) :
    isVirtualPath p = true := by
  unfold isSavedVirtualItemPath at h
  rcases Bool.or_eq_true _ _ |>.mp h with h | h
  · exact savedFolder_isVirtual h
  · exact savedFile_isVirtual h

/-- Recycle Bin paths are virtual. -/
theorem recycleBin_isVirtual {p : Str} (h : isRecycleBinPath p = true) :
    isVirtualPath p = true := by
  unfold isRecycleBinPath at h
  unfold isVirtualPath
  rw [Bool.or_eq_true] at h
  rw [List.isPrefixOf_iff_prefix]
  rcases h with h | h
  · rw [decide_eq_true_eq] at h
    subst h
    decide
  · rw [List.isPrefixOf_iff_prefix] at h
    exact List.IsPrefix.trans (by decide) h

/-- A string is a Saved item path only if it is non-empty. -/
theorem savedItem_ne_nil {p : Str} (h : isSavedVirtualItemPath p = true) : p ≠ [] := by
  intro e
  subst e
  exact absurd h (by decide)

theorem lookupCache_nil (p : Str) : lookupCache [] p = none := rfl

theorem lookupCache_setCache_self (c : SavedPathCache) (p : Str)
    (e : SavedPathCacheEntry) : lookupCache (setCache c p e) p = some e := by
  simp [setCache, lookupCache]

/-- `prefetchThumbnailsForItems` only touches the recorded-id set. -/
theorem prefetchThumbnailsForItems_state (st : ExplorerState) (items : List FileItem) :
    (prefetchThumbnailsForItems st items).1.savedPathCache = st.savedPathCache ∧
    (prefetchThumbnailsForItems st items).1.files = st.files ∧
    (prefetchThumbnailsForItems st items).1.savedItemsOffset = st.savedItemsOffset ∧
    (prefetchThumbnailsForItems st items).1.hasMoreSavedItems = st.hasMoreSavedItems ∧
    (prefetchThumbnailsForItems st items).1.currentPath = st.currentPath ∧
    (prefetchThumbnailsForItems st items).1.isSavedSyncComplete = st.isSavedSyncComplete := by
  by_cases h : prefetchBatch st.prefetchedThumbnailIds items = [] <;>
    simp [prefetchThumbnailsForItems, h]

/-- The prefetch call emits at most a thumbnail-prefetch command, never a
listing command. -/
theorem prefetchThumbnailsForItems_steps (st : ExplorerState) (items : List FileItem) :
    (prefetchThumbnailsForItems st items).2 = [] ∨
    ∃ ids, (prefetchThumbnailsForItems st items).2 =
      [HStep.invoke (Cmd.tgPrefetchMessageThumbnails ids)] := by
  by_cases h : prefetchBatch st.prefetchedThumbnailIds items = []
  · exact Or.inl (by simp [prefetchThumbnailsForItems, h])
  · refine Or.inr ⟨prefetchBatch st.prefetchedThumbnailIds items, ?_⟩
    simp [prefetchThumbnailsForItems, h]

/-- `stripTrailingSlashes` fixes strings that do not end in a slash. -/
theorem stripTrailingSlashes_eq_self {l : Str} (h : l.getLast? ≠ some '/') :
    stripTrailingSlashes l = l := by
  unfold stripTrailingSlashes
  rcases hrev : l.reverse with _ | ⟨c, rest⟩
  · simp [List.reverse_eq_nil_iff.mp hrev]
  · have hc : c ≠ '/' := by
      intro e
      apply h
      rw [← List.head?_reverse, hrev, e]
      rfl
    rw [List.dropWhile_cons]
    simp only [decide_eq_true_eq, hc, if_false]
    rw [← hrev, List.reverse_reverse]

/-- `normalizePath` fixes backslash-free strings. -/
theorem normalizePath_eq_self {l : Str} (h : '\\' ∉ l) : normalizePath l = l := by
  induction l with
  | nil => rfl
  | cons c rest ih =>
    have hc : ¬ c = '\\' := fun e => h (by rw [← e]; exact List.mem_cons_self _ _)
    have hr : '\\' ∉ rest := fun m => h (List.mem_cons_of_mem _ m)
    unfold normalizePath
    rw [List.map_cons, if_neg hc]
    exact congrArg (c :: ·) (ih hr)

/-- `virtualToSavedPath` on `tg://saved/<rel>` with `rel` non-empty and not
slash-terminated. -/
theorem virtualToSavedPath_concat (rel : Str) (hne : rel ≠ [])
    (hlast : rel.getLast? ≠ some '/') :
    virtualToSavedPath ("tg://saved/".data ++ rel) = "/Home/".data ++ rel := by
  unfold virtualToSavedPath
  have hroot : "tg://saved/".data ++ rel ≠ "tg://saved".data := by
    intro h
    have := congrArg List.length h
    simp [tgSavedSlashData, tgSavedData] at this
  rw [if_neg hroot]
  have hpre : "tg://saved/".data.isPrefixOf ("tg://saved/".data ++ rel) = true :=
    List.isPrefixOf_iff_prefix.mpr ⟨rel, rfl⟩
  simp only [hpre, if_true]
  have hdrop : ("tg://saved/".data ++ rel).drop 11 = rel := by
    simp [tgSavedSlashData]
  rw [hdrop, stripTrailingSlashes_eq_self hlast, if_neg hne]

/-- `savedToVirtualPath` on `/Home/<rel>` with `rel` non-empty, not
slash-terminated and backslash-free. -/
theorem savedToVirtualPath_concat (rel : Str) (hne : rel ≠ [])
    (hlast : rel.getLast? ≠ some '/') (hbs : '\\' ∉ rel) :
    savedToVirtualPath ("/Home/".data ++ rel) = "tg://saved/".data ++ rel := by
  unfold savedToVirtualPath
  have hbs' : '\\' ∉ "/Home/".data ++ rel := by
    intro h
    rcases List.mem_append.mp h with h | h
    · simp [homeSlashData] at h
    · exact hbs h
  have hlast' : ("/Home/".data ++ rel).getLast? ≠ some '/' := by
    rw [List.getLast?_append_of_ne_nil _ hne]
    exact hlast
  rw [normalizePath_eq_self hbs', stripTrailingSlashes_eq_self hlast']
  have hroot : "/Home/".data ++ rel ≠ "/Home".data := by
    intro h
    have := congrArg List.length h
    simp [homeSlashData, homeData] at this
  rw [if_neg hroot]
  have hpre : "/Home/".data.isPrefixOf ("/Home/".data ++ rel) = true :=
    List.isPrefixOf_iff_prefix.mpr ⟨rel, rfl⟩
  simp only [hpre, if_true]
  have hdrop : ("/Home/".data ++ rel).drop 6 = rel := by
    simp [homeSlashData]
  rw [hdrop]

theorem lookupCache_cacheSavedPath (c : SavedPathCache) (p : Str)
    (items : List FileItem) (n : Nat) (hm snap : Bool) :
    lookupCache (cacheSavedPath c p items n hm snap) p =
      some { items := items, nextOffset := n, hasMore := hm,
             isCompleteSnapshot := snap } :=
  lookupCache_setCache_self _ _ _

/-- The full-listing fetch command is among the steps emitted by
`loadAllSavedItems`. -/
theorem loadAllSavedItems_head (st : ExplorerState) (path : Str)
    (res : Except Unit (List TelegramSavedItem))
    (ost : Option ExplorerState) (steps : List HStep)
    (h : loadAllSavedItems st path res = (ost, steps)) :
    HStep.invoke (Cmd.tgListSavedItems (virtualToSavedPath path)) ∈ steps := by
  have hmem : HStep.invoke (Cmd.tgListSavedItems (virtualToSavedPath path)) ∈
      (loadAllSavedItems st path res).2 := by
    simp only [loadAllSavedItems]
    rcases res with _ | items
    · simp
    · simp
  rw [h] at hmem
  exact hmem

/-- State read back by a cache hit in `applySavedPathCache`. -/
theorem applySavedPathCache_hit (st : ExplorerState) (path : Str)
    (e : SavedPathCacheEntry) (h : lookupCache st.savedPathCache path = some e) :
    (applySavedPathCache st path).1.files = e.items ∧
    (applySavedPathCache st path).1.savedItemsOffset = e.nextOffset ∧
    (applySavedPathCache st path).1.hasMoreSavedItems = e.hasMore ∧
    (applySavedPathCache st path).1.currentPath = path ∧
    (applySavedPathCache st path).1.savedPathCache = st.savedPathCache ∧
    (applySavedPathCache st path).1.isSavedSyncComplete = st.isSavedSyncComplete := by
  unfold applySavedPathCache
  rw [h]
  obtain ⟨hc, hf, ho, hm, hp, hs⟩ := prefetchThumbnailsForItems_state
    { st with
      files := e.items
      savedItemsOffset := e.nextOffset
      hasMoreSavedItems := e.hasMore
      currentPath := path } e.items
  exact ⟨hf, ho, hm, hp, hc, hs⟩

/-- A cache hit emits at most a thumbnail prefetch, never a listing fetch. -/
theorem applySavedPathCache_steps (st : ExplorerState) (path : Str) :
    (applySavedPathCache st path).2.1 = [] ∨
    ∃ ids, (applySavedPathCache st path).2.1 =
      [HStep.invoke (Cmd.tgPrefetchMessageThumbnails ids)] := by
  unfold applySavedPathCache
  rcases h : lookupCache st.savedPathCache path with _ | e
  · exact Or.inl rfl
  · exact prefetchThumbnailsForItems_steps _ _

/-- Thumbnail prefetches never carry a page-listing command. -/
theorem page_not_in_prefetch (st : ExplorerState) (xs : List FileItem)
    (fp : Str) (off lim : Nat) :
    HStep.invoke (Cmd.tgListSavedItemsPage fp off lim) ∉
      (prefetchThumbnailsForItems st xs).2 := by
  rcases prefetchThumbnailsForItems_steps st xs with h | ⟨ids, h⟩ <;> simp [h]

/-- `loadAllSavedItems` never emits a paginated fetch. -/
theorem page_not_in_loadAll (st : ExplorerState) (path : Str)
    (res : Except Unit (List TelegramSavedItem)) (fp : Str) (off lim : Nat)
    (ost : Option ExplorerState) (steps : List HStep)
    (h : loadAllSavedItems st path res = (ost, steps)) :
    HStep.invoke (Cmd.tgListSavedItemsPage fp off lim) ∉ steps := by
  have hgen : HStep.invoke (Cmd.tgListSavedItemsPage fp off lim) ∉
      (loadAllSavedItems st path res).2 := by
    simp only [loadAllSavedItems]
    rcases res with _ | items
    · simp
    · intro hmem
      rcases List.mem_cons.mp hmem with hh | hh
      · exact absurd hh (by simp)
      · exact absurd hh (page_not_in_prefetch _ _ _ _ _)
  rw [h] at hgen
  exact hgen

/-- Every paginated fetch emitted by `loadSavedItemsPage` carries exactly the
offset it was asked for. -/
theorem page_mem_loadSavedItemsPage (st : ExplorerState) (path : Str)
    (off : Nat) (append : Bool) (res : Except Unit TelegramSavedItemsPage)
    (fp : Str) (off' lim : Nat) (ost : Option ExplorerState) (steps : List HStep)
    (h : loadSavedItemsPage st path off append res = (ost, steps))
    (hstep : HStep.invoke (Cmd.tgListSavedItemsPage fp off' lim) ∈ steps) :
    off' = off := by
  have hmem : HStep.invoke (Cmd.tgListSavedItemsPage fp off' lim) ∈
      (loadSavedItemsPage st path off append res).2 := by
    rw [h]
    exact hstep
  simp only [loadSavedItemsPage] at hmem
  rcases res with _ | r
  · simp at hmem
    exact hmem.2.1
  · rcases List.mem_cons.mp hmem with hh | hh
    · have := HStep.invoke.inj hh
      have := Cmd.tgListSavedItemsPage.inj this
      exact this.2.1
    · exact absurd hh (page_not_in_prefetch _ _ _ _ _)

/-- A successful `loadSavedItemsPage` stores `next_offset` both as the new
`savedItemsOffset` and as the cache entry's `nextOffset` for the (now
current) path, and merges by appending exactly when `append` was set. -/
theorem loadSavedItemsPage_ok_state (st : ExplorerState) (path : Str)
    (off : Nat) (append : Bool) (r : TelegramSavedItemsPage)
    (st1 : ExplorerState) (steps : List HStep)
    (h : loadSavedItemsPage st path off append (Except.ok r) = (some st1, steps)) :
    st1.savedItemsOffset = r.next_offset ∧
    st1.currentPath = path ∧
    st1.files = (if append then st.files ++ r.items.map savedItemToFileItem
                 else r.items.map savedItemToFileItem) ∧
    ∃ e, lookupCache st1.savedPathCache st1.currentPath = some e ∧
      st1.savedItemsOffset = e.nextOffset := by
  simp only [loadSavedItemsPage] at h
  rw [Prod.mk.injEq] at h
  obtain ⟨h1, h2⟩ := h
  injection h1 with h1
  obtain ⟨hc, hf, ho, hm, hp, hs⟩ := prefetchThumbnailsForItems_state
    { st with
      files := if append then st.files ++ r.items.map savedItemToFileItem
               else r.items.map savedItemToFileItem
      savedItemsOffset := r.next_offset
      hasMoreSavedItems := r.has_more
      currentPath := path
      savedPathCache := cacheSavedPath st.savedPathCache path
        (if append then st.files ++ r.items.map savedItemToFileItem
         else r.items.map savedItemToFileItem) r.next_offset r.has_more false }
    (if append then st.files ++ r.items.map savedItemToFileItem
     else r.items.map savedItemToFileItem)
  rw [← h1]
  refine ⟨by rw [ho], by rw [hp], by rw [hf], ?_⟩
  rw [ho, hp, hc]
  exact ⟨_, lookupCache_cacheSavedPath _ _ _ _ _ _, rfl⟩

/-- A successful `loadAllSavedItems` also re-establishes the
offset/`nextOffset` agreement for the current path. -/
theorem loadAllSavedItems_ok_state (st : ExplorerState) (path : Str)
    (items : List TelegramSavedItem) (st1 : ExplorerState) (steps : List HStep)
    (h : loadAllSavedItems st path (Except.ok items) = (some st1, steps)) :
    st1.currentPath = path ∧
    ∃ e, lookupCache st1.savedPathCache st1.currentPath = some e ∧
      st1.savedItemsOffset = e.nextOffset := by
  simp only [loadAllSavedItems] at h
  rw [Prod.mk.injEq] at h
  obtain ⟨h1, h2⟩ := h
  injection h1 with h1
  obtain ⟨hc, hf, ho, hm, hp, hs⟩ := prefetchThumbnailsForItems_state
    { st with
      files := items.map savedItemToFileItem
      savedItemsOffset := (items.map savedItemToFileItem).length
      hasMoreSavedItems := false
      currentPath := path
      savedPathCache := cacheSavedPath st.savedPathCache path
        (items.map savedItemToFileItem) (items.map savedItemToFileItem).length
        false true }
    (items.map savedItemToFileItem)
  rw [← h1]
  refine ⟨by rw [hp], ?_⟩
  rw [ho, hp, hc]
  exact ⟨_, lookupCache_cacheSavedPath _ _ _ _ _ _, rfl⟩

/-- Invariant of the prefetch machine: each id is in at most one in-flight
batch, and every in-flight batch's ids are recorded. -/
def PrefetchInv (s : PrefetchState) : Prop :=
  (∀ idv, countContaining idv s.outstanding ≤ 1) ∧
  (∀ b ∈ s.outstanding, ∀ idv ∈ b, idv ∈ s.prefetched)

/-- The batch computed for a new prefetch excludes every recorded id. -/
theorem prefetchBatch_not_recorded (prefetched : List Nat) (items : List FileItem)
    (idv : Nat) (h : idv ∈ prefetchBatch prefetched items) : idv ∉ prefetched := by
  have := List.of_mem_filter h
  simpa using this

theorem countContaining_append (idv : Nat) (l1 l2 : List (List Nat)) :
    countContaining idv (l1 ++ l2) =
      countContaining idv l1 + countContaining idv l2 := by
  simp [countContaining, List.filter_append]

theorem countContaining_le_of_sublist (idv : Nat) (l1 l2 : List (List Nat))
    (h : List.Sublist l1 l2) : countContaining idv l1 ≤ countContaining idv l2 :=
  List.Sublist.length_le (List.Sublist.filter _ h)

/-- One step of the prefetch machine preserves the invariant. -/
theorem prefetchStep_preserves (s : PrefetchState) (e : PrefetchEvent)
    (hInv : PrefetchInv s) : PrefetchInv (prefetchStep s e) := by
  obtain ⟨h1, h2⟩ := hInv
  rcases e with items | ⟨batch, success⟩
  · simp only [prefetchStep]
    by_cases hb : prefetchBatch s.prefetched items = []
    · rw [if_pos hb]
      exact ⟨h1, h2⟩
    · rw [if_neg hb]
      constructor
      · intro idv
        rw [countContaining_append]
        by_cases hid : idv ∈ prefetchBatch s.prefetched items
        · have hnot := prefetchBatch_not_recorded s.prefetched items idv hid
          have hzero : countContaining idv s.outstanding = 0 := by
            rw [countContaining, List.length_eq_zero, List.filter_eq_nil_iff]
            intro b hbmem
            simp only [decide_eq_true_eq]
            intro hidb
            exact hnot (h2 b hbmem idv hidb)
          rw [hzero]
          simp [countContaining, hid]
        · have hone : countContaining idv [prefetchBatch s.prefetched items] = 0 := by
            simp [countContaining, hid]
          rw [hone]
          simpa using h1 idv
      · intro b hbmem idv hidb
        rcases List.mem_append.mp hbmem with hb' | hb'
        · exact List.mem_append_left _ (h2 b hb' idv hidb)
        · simp at hb'
          subst hb'
          exact List.mem_append_right _ hidb
  · simp only [prefetchStep]
    by_cases hmem : batch ∈ s.outstanding
    · rw [if_pos hmem]
      constructor
      · intro idv
        exact le_trans
          (countContaining_le_of_sublist idv _ _ (List.erase_sublist _ _)) (h1 idv)
      · intro b hbmem idv hidb
        have hb' : b ∈ s.outstanding :=
          List.mem_of_mem_erase (by simpa using hbmem)
        have hrec : idv ∈ s.prefetched := h2 b hb' idv hidb
        show idv ∈ if success = true then s.prefetched
          else s.prefetched.filter (fun i => decide (i ∉ batch))
        by_cases hsucc : success = true
        · rw [if_pos hsucc]
          exact hrec
        · rw [if_neg hsucc]
          have hnotbatch : idv ∉ batch := by
            intro hinbatch
            obtain ⟨l1, l2, hnl1, hdecomp, herase⟩ := List.exists_erase_eq hmem
            have hcons : countContaining idv (batch :: l2) =
                countContaining idv l2 + 1 := by
              simp [countContaining, List.filter_cons, hinbatch]
            have hbmem' : b ∈ l1 ++ l2 := by
              rw [← herase]
              simpa using hbmem
            have hfil : b ∈ (l1 ++ l2).filter (fun bb => decide (idv ∈ bb)) :=
              List.mem_filter.mpr ⟨hbmem', by simpa using hidb⟩
            have hother : 0 < countContaining idv (l1 ++ l2) :=
              List.length_pos.mpr (List.ne_nil_of_mem hfil)
            have htotal := h1 idv
            rw [hdecomp, countContaining_append, hcons] at htotal
            rw [countContaining_append] at hother
            omega
          exact List.mem_filter.mpr ⟨hrec, by simpa using hnotbatch⟩
    · rw [if_neg hmem]
      exact ⟨h1, h2⟩

theorem foldl_prefetchStep_inv (events : List PrefetchEvent) :
    ∀ s, PrefetchInv s → PrefetchInv (events.foldl prefetchStep s) := by
  induction events with
  | nil => exact fun s h => h
  | cons e rest ih => exact fun s h => ih _ (prefetchStep_preserves s e h)

/-- A grid item that has already retried emits nothing and keeps the
guard. -/
theorem onImgError_retried (g : FileGridItemState) (res : Except Unit (Option Str))
    (h : g.hasRetriedBrokenThumbnail = true) :
    (onImgError g res).2 = [] ∧
    (onImgError g res).1.hasRetriedBrokenThumbnail = true := by
  rcases hthumb : g.thumbUrl with _ | u
  · simp [onImgError, hthumb, h]
  · simp only [onImgError, hthumb]
    unfold refetchThumbnail
    rcases hmid : g.file.messageId with _ | mid
    · simp [hmid, h]
    · by_cases h0 : mid = 0
      · simp [hmid, h0, h]
      · simp [hmid, h0, h]

/-- An error report either emits nothing and keeps the retry guard
unchanged, or emits exactly one fetch and sets the guard. -/
theorem onImgError_cases (g : FileGridItemState) (res : Except Unit (Option Str)) :
    ((onImgError g res).2 = [] ∧
      (onImgError g res).1.hasRetriedBrokenThumbnail = g.hasRetriedBrokenThumbnail) ∨
    (∃ c, (onImgError g res).2 = [c] ∧
      (onImgError g res).1.hasRetriedBrokenThumbnail = true) := by
  rcases hthumb : g.thumbUrl with _ | u
  · left
    simp [onImgError, hthumb]
  · simp only [onImgError, hthumb]
    unfold refetchThumbnail
    rcases hmid : g.file.messageId with _ | mid
    · left
      simp [hmid]
    · by_cases h0 : mid = 0
      · left
        simp [hmid, h0]
      · by_cases hret : g.hasRetriedBrokenThumbnail = true
        · left
          simp [hmid, h0, hret]
        · right
          refine ⟨HStep.invoke (Cmd.tgGetMessageThumbnail mid), ?_, ?_⟩ <;>
            rcases res with _ | result
          · simp [hmid, h0, hret]
          · rcases hres : resolveThumbnailSrc result with _ | resolved <;>
              simp [hmid, h0, hret, hres]
          · simp [hmid, h0, hret]
          · rcases hres : resolveThumbnailSrc result with _ | resolved <;>
              simp [hmid, h0, hret, hres]

/-- Once the retry guard is set, a mounted grid item never fetches again. -/
theorem runImgErrors_retried (rs : List (Except Unit (Option Str))) :
    ∀ g : FileGridItemState, g.hasRetriedBrokenThumbnail = true →
      (runImgErrors g rs).2 = [] := by
  induction rs with
  | nil => exact fun g _ => rfl
  | cons r rest ih =>
    intro g h
    obtain ⟨hsteps, hflag⟩ := onImgError_retried g r h
    simp only [runImgErrors]
    rw [hsteps, ih _ hflag]
    rfl

/-- From an un-retried state, any sequence of error reports emits at most
one fetch. -/
theorem runImgErrors_len (rs : List (Except Unit (Option Str))) :
    ∀ g : FileGridItemState, g.hasRetriedBrokenThumbnail = false →
      (runImgErrors g rs).2.length ≤ 1 := by
  induction rs with
  | nil =>
    intro g _
    simp [runImgErrors]
  | cons r rest ih =>
    intro g h
    simp only [runImgErrors, List.length_append]
    rcases onImgError_cases g r with ⟨hsteps, hflag⟩ | ⟨c, hsteps, hflag⟩
    · rw [hsteps]
      have := ih (onImgError g r).1 (by rw [hflag, h])
      simpa using this
    · rw [hsteps, runImgErrors_retried rest _ hflag]
      simp

/-!
## Claim theorems
-/

/-- C1: for every drag-and-drop move of a Saved Messages item,
`canDropToTarget(sourcePath, target)` returns `false` whenever the
destination is not a folder, or equals the source, or equals the source's
current parent (for a folder: the parent encoded in its path; for a file:
the currently displayed path), or is a descendant of the source (its path
extends the source's path followed by `/`).  In particular a folder can
never be dropped into any of its descendants. -/
theorem canDropToTarget_rejects_invalid (currentPath : Str) (files : List FileItem)
    (sourcePath : Str) (target : FileItem)
    (hsrc : isSavedVirtualItemPath sourcePath = true)
    (hbad :
      target.isDirectory = false ∨
      target.path = sourcePath ∨
      (isSavedVirtualFolderPath sourcePath = true ∧
        target.path = getParentPath sourcePath) ∨
      (isSavedVirtualFilePath sourcePath = true ∧ target.path = currentPath) ∨
      (sourcePath ++ ['/']) <+: target.path) :
    canDropToTarget currentPath files sourcePath target = false := by
  unfold isSavedVirtualItemPath at hsrc
  simp only [canDropToTarget]
  split_ifs with h1 h2 h3 h4 h5 h6 h7 h8 h9 h10 h11 h12 h13 <;> try rfl
  · exfalso
    rcases hbad with hdir | hpath | ⟨hA, hpar⟩ | ⟨hB, hcp⟩ | hdesc
    · exact h2 hdir
    · exact h5 hpath.symm
    · exact h6 ⟨hA, hpar.symm⟩
    · exact h8 ⟨hB, hcp.symm⟩
    · by_cases hA : isSavedVirtualFolderPath sourcePath = true
      · exact h7 ⟨hA, List.isPrefixOf_iff_prefix.mpr hdesc⟩
      · have hB : isSavedVirtualFilePath sourcePath = true := by
          rcases Bool.or_eq_true _ _ |>.mp hsrc with h | h
          · exact absurd h hA
          · exact h
        obtain ⟨u, hu⟩ := hdesc
        have hfold : isSavedVirtualFolderPath target.path = false := by
          rw [← hu, List.append_assoc]
          exact savedFile_append_not_folder hB _
        rw [h4.2] at hfold
        exact absurd hfold (by decide)
  · exact absurd (Bool.or_eq_true _ _ |>.mpr (Or.inl hsrc)) h3

/-- C1 witness: dropping the folder `tg://saved/A` onto its descendant
`tg://saved/A/B` is rejected. -/
theorem canDropToTarget_rejects_invalid_witness :
    isSavedVirtualItemPath "tg://saved/A".data = true ∧
    canDropToTarget "tg://saved".data [] "tg://saved/A".data
      { name := "B".data, path := "tg://saved/A/B".data, isDirectory := true } = false :=
  ⟨by decide,
   canDropToTarget_rejects_invalid "tg://saved".data [] "tg://saved/A".data
     { name := "B".data, path := "tg://saved/A/B".data, isDirectory := true }
     (by decide)
     (Or.inr (Or.inr (Or.inr (Or.inr (by decide)))))⟩

/-- C6 counterexample: the claim quantifies over every relative segment with
no leading or trailing slash, but a backslash inside the segment breaks the
round trip, because `savedToVirtualPath` normalizes backslashes to slashes
while `virtualToSavedPath` does not: for `v = "tg://saved/a\b"` (whose
relative part `a\b` is non-empty with no leading or trailing slash) the
round trip returns `"tg://saved/a/b" ≠ v`. -/
theorem virtual_saved_roundtrip_counterexample :
    ("a\\b".data ≠ [] ∧ "a\\b".data.head? ≠ some '/' ∧
      "a\\b".data.getLast? ≠ some '/') ∧
    savedToVirtualPath (virtualToSavedPath ("tg://saved/".data ++ "a\\b".data)) ≠
      "tg://saved/".data ++ "a\\b".data := by decide

/-- C6 (amended): the mappings are mutually inverse on canonical paths whose
relative part additionally contains no backslash: for every virtual path
`tg://saved` or `tg://saved/<rel>` with `rel` non-empty, with no leading or
trailing slash and backslash-free, `savedToVirtualPath ∘ virtualToSavedPath`
is the identity; and for every saved path `/Home` or `/Home/<rel>` with no
trailing slash and backslash-free, `virtualToSavedPath ∘ savedToVirtualPath`
is the identity. -/
theorem virtual_saved_roundtrip (rel relS : Str)
    (h1 : rel ≠ []) (_h2 : rel.head? ≠ some '/') (h3 : rel.getLast? ≠ some '/')
    (h4 : '\\' ∉ rel)
    (h5 : relS ≠ []) (h6 : relS.getLast? ≠ some '/') (h7 : '\\' ∉ relS) :
    savedToVirtualPath (virtualToSavedPath "tg://saved".data) = "tg://saved".data ∧
    savedToVirtualPath (virtualToSavedPath ("tg://saved/".data ++ rel)) =
      "tg://saved/".data ++ rel ∧
    virtualToSavedPath (savedToVirtualPath "/Home".data) = "/Home".data ∧
    virtualToSavedPath (savedToVirtualPath ("/Home/".data ++ relS)) =
      "/Home/".data ++ relS := by
  refine ⟨by decide, ?_, by decide, ?_⟩
  · rw [virtualToSavedPath_concat rel h1 h3, savedToVirtualPath_concat rel h1 h3 h4]
  · rw [savedToVirtualPath_concat relS h5 h6 h7,
      virtualToSavedPath_concat relS h5 h6]

/-- C6 witness: round trips at `rel = "Docs/R"` and `relS = "Pics"`. -/
theorem virtual_saved_roundtrip_witness :
    savedToVirtualPath (virtualToSavedPath ("tg://saved/".data ++ "Docs/R".data)) =
      "tg://saved/".data ++ "Docs/R".data ∧
    virtualToSavedPath (savedToVirtualPath ("/Home/".data ++ "Pics".data)) =
      "/Home/".data ++ "Pics".data :=
  ⟨(virtual_saved_roundtrip "Docs/R".data "Pics".data (by decide) (by decide)
      (by decide) (by decide) (by decide) (by decide) (by decide)).2.1,
   (virtual_saved_roundtrip "Docs/R".data "Pics".data (by decide) (by decide)
      (by decide) (by decide) (by decide) (by decide) (by decide)).2.2.2⟩

/-- C9: at the Saved Messages root, the Recycle Bin directory entry is
excluded from `filteredFiles` for every search query; at every other current
path, membership is decided by the search query alone. -/
theorem filteredFiles_recycleBin_hidden (files : List FileItem) (search : Str)
    (f : FileItem) (cp : Str) (hcp : cp ≠ "tg://saved".data) :
    (f ∈ filteredFiles "tg://saved".data search files →
      ¬ (f.isDirectory = true ∧ f.path = RECYCLE_BIN_VIRTUAL_PATH)) ∧
    (f ∈ filteredFiles cp search files ↔
      f ∈ files ∧ (lowerStr (trimStr search) = [] ∨
        includesStr (lowerStr f.name) (lowerStr (trimStr search)) = true)) := by
  constructor
  · intro hmem hcontra
    obtain ⟨hdir, hpath⟩ := hcontra
    simp only [filteredFiles, List.mem_filter] at hmem
    rcases hmem with ⟨-, hp⟩
    rw [if_pos ⟨trivial, hdir, hpath⟩] at hp
    exact absurd hp (by decide)
  · simp only [filteredFiles, List.mem_filter]
    rw [if_neg (fun hcond => hcp hcond.1)]
    by_cases hq : lowerStr (trimStr search) = []
    · rw [if_pos hq]
      simp [hq]
    · rw [if_neg hq]
      simp [hq]

/-- C9 witness: at the root, the Recycle Bin folder is filtered out of a
listing that contains it; at `tg://saved/Docs` nothing is filtered without a
query. -/
theorem filteredFiles_recycleBin_hidden_witness :
    (({ name := "Recycle Bin".data, path := RECYCLE_BIN_VIRTUAL_PATH,
        isDirectory := true } : FileItem) ∈
      filteredFiles "tg://saved".data []
        [{ name := "Recycle Bin".data, path := RECYCLE_BIN_VIRTUAL_PATH,
           isDirectory := true }] →
      ¬ (({ name := "Recycle Bin".data, path := RECYCLE_BIN_VIRTUAL_PATH,
            isDirectory := true } : FileItem).isDirectory = true ∧
         ({ name := "Recycle Bin".data, path := RECYCLE_BIN_VIRTUAL_PATH,
            isDirectory := true } : FileItem).path = RECYCLE_BIN_VIRTUAL_PATH)) ∧
    (({ name := "Recycle Bin".data, path := RECYCLE_BIN_VIRTUAL_PATH,
        isDirectory := true } : FileItem) ∈
      filteredFiles "tg://saved/Docs".data []
        [{ name := "Recycle Bin".data, path := RECYCLE_BIN_VIRTUAL_PATH,
           isDirectory := true }] ↔
      ({ name := "Recycle Bin".data, path := RECYCLE_BIN_VIRTUAL_PATH,
         isDirectory := true } : FileItem) ∈
        [({ name := "Recycle Bin".data, path := RECYCLE_BIN_VIRTUAL_PATH,
            isDirectory := true } : FileItem)] ∧
      (lowerStr (trimStr []) = [] ∨
        includesStr (lowerStr "Recycle Bin".data) (lowerStr (trimStr [])) = true)) :=
  filteredFiles_recycleBin_hidden
    [{ name := "Recycle Bin".data, path := RECYCLE_BIN_VIRTUAL_PATH,
       isDirectory := true }] []
    { name := "Recycle Bin".data, path := RECYCLE_BIN_VIRTUAL_PATH,
      isDirectory := true }
    "tg://saved/Docs".data (by decide)

/-- C2: after every successful mutating operation on a Saved Messages item —
move to Recycle Bin or permanent delete (`handleDelete`), restore, folder
creation, rename, paste, drag-and-drop move, or upload — the entire per-path
pagination cache is reset to the empty record (so a lookup of any path
misses) and the reset step precedes the forced reload of the view in the
handler's step trace. -/
theorem mutation_resets_cache_before_reload :
    (∀ (st : ExplorerState) (t : FileItem), st.deleteTarget = some t →
      isSavedVirtualItemPath t.path = true →
      (handleDelete st (Except.ok ())).1.savedPathCache = [] ∧
      (∀ p, lookupCache (handleDelete st (Except.ok ())).1.savedPathCache p = none) ∧
      ∃ c, (handleDelete st (Except.ok ())).2 =
        [HStep.invoke c, HStep.toastOk, HStep.cacheReset,
         HStep.reload st.currentPath true]) ∧
    (∀ (st : ExplorerState) (f : FileItem), isRecycleBinPath st.currentPath = true →
      isSavedVirtualItemPath f.path = true →
      (handleRestoreFromRecycleBin st (some f) (Except.ok ())).1.savedPathCache = [] ∧
      (∀ p, lookupCache
        (handleRestoreFromRecycleBin st (some f) (Except.ok ())).1.savedPathCache p = none) ∧
      (handleRestoreFromRecycleBin st (some f) (Except.ok ())).2 =
        [HStep.invoke (Cmd.tgRestoreSavedItem f.path), HStep.cacheReset,
         HStep.toastOk, HStep.reload st.currentPath true]) ∧
    (∀ (st : ExplorerState), trimStr st.newFolderName ≠ [] →
      "tg://saved".data.isPrefixOf st.currentPath = true →
      (handleConfirmNewFolder st (Except.ok ())).1.savedPathCache = [] ∧
      (∀ p, lookupCache
        (handleConfirmNewFolder st (Except.ok ())).1.savedPathCache p = none) ∧
      (handleConfirmNewFolder st (Except.ok ())).2 =
        [HStep.invoke (Cmd.tgCreateSavedFolder (virtualToSavedPath st.currentPath)
          (trimStr st.newFolderName)), HStep.cacheReset, HStep.toastOk,
         HStep.reload st.currentPath true]) ∧
    (∀ (st : ExplorerState) (f : FileItem), st.renameTarget = some f →
      trimStr st.renameValue ≠ [] → trimStr st.renameValue ≠ f.name →
      isSavedVirtualItemPath f.path = true →
      (handleConfirmRename st (Except.ok ())).1.savedPathCache = [] ∧
      (∀ p, lookupCache
        (handleConfirmRename st (Except.ok ())).1.savedPathCache p = none) ∧
      (handleConfirmRename st (Except.ok ())).2 =
        [HStep.invoke (Cmd.tgRenameSavedItem f.path (trimStr st.renameValue)),
         HStep.cacheReset, HStep.toastOk, HStep.reload st.currentPath true]) ∧
    (∀ (st : ExplorerState) (clip : ExplorerClipboardItem),
      st.clipboardItem = some clip →
      resolvePasteDestinationPath st ≠ [] →
      isRecycleBinPath (resolvePasteDestinationPath st) = false →
      isSavedVirtualItemPath clip.path = true →
      isSavedVirtualFolderPath (resolvePasteDestinationPath st) = true →
      (handlePaste st (Except.ok ())).1.savedPathCache = [] ∧
      (∀ p, lookupCache (handlePaste st (Except.ok ())).1.savedPathCache p = none) ∧
      (handlePaste st (Except.ok ())).2 =
        [HStep.invoke (Cmd.tgMoveSavedItem clip.path (resolvePasteDestinationPath st)),
         HStep.cacheReset, HStep.reload st.currentPath true, HStep.toastOk]) ∧
    (∀ (st : ExplorerState) (sourcePath : Str) (target : FileItem),
      canDropToTarget st.currentPath st.files sourcePath target = true →
      (isSavedVirtualFolderPath sourcePath || isSavedVirtualFilePath sourcePath) = true →
      isSavedVirtualFolderPath target.path = true →
      (handleItemDrop st (some sourcePath) target (Except.ok ())).1.savedPathCache = [] ∧
      (∀ p, lookupCache
        (handleItemDrop st (some sourcePath) target (Except.ok ())).1.savedPathCache p = none) ∧
      (handleItemDrop st (some sourcePath) target (Except.ok ())).2 =
        [HStep.invoke (Cmd.tgMoveSavedItem sourcePath target.path), HStep.toastOk,
         HStep.cacheReset, HStep.reload st.currentPath true]) ∧
    (∀ (st : ExplorerState) (uploads : List (Str × Bool)), uploads ≠ [] →
      "tg://saved".data.isPrefixOf st.currentPath = true →
      isRecycleBinPath st.currentPath = false →
      0 < (uploads.filter (fun u => u.2 = true)).length →
      (handleUploadFiles st uploads).1.savedPathCache = [] ∧
      (∀ p, lookupCache (handleUploadFiles st uploads).1.savedPathCache p = none) ∧
      ∃ pre post, (handleUploadFiles st uploads).2 =
        pre ++ HStep.cacheReset :: HStep.reload st.currentPath true :: post) := by
  refine ⟨?_, ?_, ?_, ?_, ?_, ?_, ?_⟩
  · intro st t ht hs
    simp only [handleDelete, ht, hs]
    refine ⟨by simp, fun p => by simp [lookupCache], ?_⟩
    by_cases hrb : isRecycleBinPath st.currentPath = true <;> simp [hrb]
  · intro st f hrb hs
    simp only [handleRestoreFromRecycleBin, hrb, hs]
    exact ⟨by simp, fun p => by simp [lookupCache], by simp⟩
  · intro st hname hsaved
    simp only [handleConfirmNewFolder, hname, hsaved]
    exact ⟨by simp [hname, hsaved], fun p => by simp [hname, hsaved, lookupCache],
      by simp [hname, hsaved]⟩
  · intro st f hf hval hdiff hs
    simp only [handleConfirmRename, hf]
    rw [if_neg hval, if_neg hdiff, if_pos hs]
    exact ⟨by simp, fun p => by simp [lookupCache], by simp⟩
  · intro st clip hclip hne hrb hsrc hdest
    simp only [handlePaste, hclip]
    rw [if_neg hne, if_neg (by simp [hrb]), if_pos (by simp [hsrc]),
      if_neg (by simp [hsrc, hdest])]
    exact ⟨by simp, fun p => by simp [lookupCache], by simp⟩
  · intro st sourcePath target hcan hsrc hdest
    have hnrb : isRecycleBinPath st.currentPath = false := by
      rcases hr : isRecycleBinPath st.currentPath
      · rfl
      · rw [canDropToTarget, if_pos hr] at hcan
        exact absurd hcan (by decide)
    simp only [handleItemDrop]
    rw [if_neg (by simp [hcan]), if_neg (by simp [hnrb]),
      if_pos (by simp [hsrc, hdest])]
    exact ⟨by simp, fun p => by simp [lookupCache], by simp⟩
  · intro st uploads hne hsaved hnrb hok
    simp only [handleUploadFiles]
    rw [if_neg hne, if_neg (by simp [hsaved]), if_neg (by simp [hnrb])]
    rw [if_pos hok]
    refine ⟨by simp, fun p => by simp [lookupCache], ?_⟩
    refine ⟨uploads.map (fun u => HStep.invoke
      (Cmd.tgUploadFileToSavedMessages u.1 (virtualToSavedPath st.currentPath))),
      HStep.toastOk ::
        (if 0 < (uploads.filter (fun u => u.2 = false)).length
         then [HStep.toastError] else []), ?_⟩
    simp

/-- The file item used by concrete witness states. -/
def wFile : FileItem :=
  { name := "f".data, path := "tg://msg/5".data, isDirectory := false }

/-- A clipboard entry holding a cut Saved Messages file. -/
def wClip : ExplorerClipboardItem :=
  { path := "tg://msg/5".data, name := "f".data, isDirectory := false,
    mode := ClipboardMode.cut }

/-- State with a pending Saved Messages delete target. -/
def wDelState : ExplorerState :=
  { initialExplorerState with deleteTarget := some wFile }

/-- State browsing the Recycle Bin. -/
def wResState : ExplorerState :=
  { initialExplorerState with currentPath := RECYCLE_BIN_VIRTUAL_PATH }

/-- State with a pending new-folder name. -/
def wNFState : ExplorerState :=
  { initialExplorerState with newFolderName := "Docs".data }

/-- State with a pending rename. -/
def wRenState : ExplorerState :=
  { initialExplorerState with
    renameTarget := some wFile,
    renameValue := "new".data }

/-- State with a cut Saved Messages file on the clipboard. -/
def wPasteState : ExplorerState :=
  { initialExplorerState with clipboardItem := some wClip }

/-- A Saved Messages folder used as a drop target. -/
def wDropTarget : FileItem :=
  { name := "Docs".data, path := "tg://saved/Docs".data, isDirectory := true }

/-- C2 witness: each mutating handler, run on a concrete state with a
successful backend reply, leaves the pagination cache empty. -/
theorem mutation_resets_cache_before_reload_witness :
    (handleDelete wDelState (Except.ok ())).1.savedPathCache = [] ∧
    (handleRestoreFromRecycleBin wResState (some wFile) (Except.ok ())).1.savedPathCache = [] ∧
    (handleConfirmNewFolder wNFState (Except.ok ())).1.savedPathCache = [] ∧
    (handleConfirmRename wRenState (Except.ok ())).1.savedPathCache = [] ∧
    (handlePaste wPasteState (Except.ok ())).1.savedPathCache = [] ∧
    (handleItemDrop initialExplorerState (some "tg://msg/5".data) wDropTarget
      (Except.ok ())).1.savedPathCache = [] ∧
    (handleUploadFiles initialExplorerState [("a.txt".data, true)]).1.savedPathCache = [] :=
  ⟨(mutation_resets_cache_before_reload.1 wDelState wFile (by decide) (by decide)).1,
   (mutation_resets_cache_before_reload.2.1 wResState wFile (by decide) (by decide)).1,
   (mutation_resets_cache_before_reload.2.2.1 wNFState (by decide) (by decide)).1,
   (mutation_resets_cache_before_reload.2.2.2.1 wRenState wFile (by decide) (by decide)
     (by decide) (by decide)).1,
   (mutation_resets_cache_before_reload.2.2.2.2.1 wPasteState wClip (by decide)
     (by decide) (by decide) (by decide) (by decide)).1,
   (mutation_resets_cache_before_reload.2.2.2.2.2.1 initialExplorerState
     "tg://msg/5".data wDropTarget (by decide) (by decide) (by decide)).1,
   (mutation_resets_cache_before_reload.2.2.2.2.2.2 initialExplorerState
     [("a.txt".data, true)] (by decide) (by decide) (by decide) (by decide)).1⟩

/-- C3: whenever exactly one endpoint of a paste or drag-and-drop lies in
the Saved Messages virtual domain (`tg://saved…` or `tg://msg/…`) while the
other is a real (non-virtual, non-empty) filesystem path, the operation is
refused before any command is issued: `handlePaste` returns the unchanged
state with only an error notification, and `canDropToTarget` returns
`false`. -/
theorem crossDomain_move_refused :
    (∀ (st : ExplorerState) (clip : ExplorerClipboardItem) (res : Except Unit Unit),
      st.clipboardItem = some clip →
      ((isSavedVirtualItemPath clip.path = true ∧
          isVirtualPath (resolvePasteDestinationPath st) = false ∧
          resolvePasteDestinationPath st ≠ []) ∨
        (isVirtualPath clip.path = false ∧
          isSavedVirtualItemPath (resolvePasteDestinationPath st) = true)) →
      handlePaste st res = (st, [HStep.toastError])) ∧
    (∀ (currentPath : Str) (files : List FileItem) (sourcePath : Str)
        (target : FileItem),
      ((isSavedVirtualItemPath sourcePath = true ∧
          isVirtualPath target.path = false) ∨
        (isVirtualPath sourcePath = false ∧
          isSavedVirtualItemPath target.path = true)) →
      canDropToTarget currentPath files sourcePath target = false) := by
  constructor
  · intro st clip res hclip hmix
    simp only [handlePaste, hclip]
    rcases hmix with ⟨hA1, hA2, hA3⟩ | ⟨hB1, hB2⟩
    · rw [if_neg hA3]
      have hrb : isRecycleBinPath (resolvePasteDestinationPath st) = false := by
        rcases hr : isRecycleBinPath (resolvePasteDestinationPath st)
        · rfl
        · exact absurd (recycleBin_isVirtual hr) (by simp [hA2])
      rw [if_neg (by simp [hrb])]
      have hdest : isSavedVirtualFolderPath (resolvePasteDestinationPath st) = false := by
        rcases hd : isSavedVirtualFolderPath (resolvePasteDestinationPath st)
        · rfl
        · exact absurd (savedFolder_isVirtual hd) (by simp [hA2])
      rw [if_pos (by simp [hA1]), if_pos (fun hcontra => by simp [hdest] at hcontra)]
    · have hne : resolvePasteDestinationPath st ≠ [] := savedItem_ne_nil hB2
      rw [if_neg hne]
      by_cases hrb : isRecycleBinPath (resolvePasteDestinationPath st) = true
      · rw [if_pos (by simp [hrb])]
      · rw [if_neg (by simp at hrb ⊢; exact hrb)]
        have hsrc : isSavedVirtualItemPath clip.path = false := by
          rcases hs : isSavedVirtualItemPath clip.path
          · rfl
          · exact absurd (savedItem_isVirtual hs) (by simp [hB1])
        unfold isSavedVirtualItemPath at hB2
        rcases Bool.or_eq_true _ _ |>.mp hB2 with hfold | hfile
        · rw [if_pos (by simp [hfold]),
            if_pos (fun hcontra => by simp [hsrc] at hcontra)]
        · have hdest : isSavedVirtualFolderPath (resolvePasteDestinationPath st) = false := by
            have := savedFile_append_not_folder hfile []
            rwa [List.append_nil] at this
          rw [if_neg (by simp [hsrc, hdest]),
            if_pos (by simp [savedFile_isVirtual hfile])]
  · intro currentPath files sourcePath target hmix
    simp only [canDropToTarget]
    split_ifs with h1 h2 h3 h4 h5 h6 h7 h8 h9 h10 h11 h12 h13 <;> try rfl
    · exfalso
      rcases hmix with ⟨hA1, hA2⟩ | ⟨hB1, hB2⟩
      · exact absurd (savedFolder_isVirtual h4.2) (by simp [hA2])
      · have hitem : isSavedVirtualItemPath sourcePath = true := by
          unfold isSavedVirtualItemPath
          exact h4.1
        exact absurd (savedItem_isVirtual hitem) (by simp [hB1])
    · exfalso
      rcases hmix with ⟨hA1, hA2⟩ | ⟨hB1, hB2⟩
      · exact h3 (Bool.or_eq_true _ _ |>.mpr (Or.inl hA1))
      · unfold isSavedVirtualItemPath at hB2
        rcases Bool.or_eq_true _ _ |>.mp hB2 with hfold | hfile
        · exact h3 (Bool.or_eq_true _ _ |>.mpr (Or.inr hfold))
        · exact h10 (Bool.or_eq_true _ _ |>.mpr (Or.inr (savedFile_isVirtual hfile)))

/-- State with a cut Saved Messages file on the clipboard while a real
filesystem directory is displayed. -/
def wCrossState : ExplorerState :=
  { initialExplorerState with
    currentPath := "/local".data,
    clipboardItem := some wClip }

/-- C3 witness: pasting a cut Saved Messages file into the real directory
`/local` is refused with only an error notification, and dragging it onto a
real folder is rejected. -/
theorem crossDomain_move_refused_witness :
    handlePaste wCrossState (Except.ok ()) = (wCrossState, [HStep.toastError]) ∧
    canDropToTarget "/local".data [] "tg://msg/5".data
      { name := "d".data, path := "/local/d".data, isDirectory := true } = false :=
  ⟨crossDomain_move_refused.1 wCrossState wClip (Except.ok ()) (by decide)
     (Or.inl (by decide)),
   crossDomain_move_refused.2 "/local".data [] "tg://msg/5".data
     { name := "d".data, path := "/local/d".data, isDirectory := true }
     (Or.inl (by decide))⟩

/-- C10: when the backend invocation of a Saved Messages mutation rejects —
in `handleDelete` (permanent delete or move to Recycle Bin),
`handleConfirmRename`, or `handlePaste` — the frontend state is returned
unchanged (in particular the pagination cache is untouched), no reload step
is emitted, and the trace is exactly the failed invocation followed by one
error notification. -/
theorem mutation_failure_leaves_state_unchanged :
    (∀ (st : ExplorerState) (t : FileItem), st.deleteTarget = some t →
      isSavedVirtualItemPath t.path = true →
      (handleDelete st (Except.error ())).1 = st ∧
      ∃ c, (handleDelete st (Except.error ())).2 =
        [HStep.invoke c, HStep.toastError]) ∧
    (∀ (st : ExplorerState) (f : FileItem), st.renameTarget = some f →
      trimStr st.renameValue ≠ [] → trimStr st.renameValue ≠ f.name →
      isSavedVirtualItemPath f.path = true →
      (handleConfirmRename st (Except.error ())).1 = st ∧
      ∃ c, (handleConfirmRename st (Except.error ())).2 =
        [HStep.invoke c, HStep.toastError]) ∧
    (∀ (st : ExplorerState) (clip : ExplorerClipboardItem),
      st.clipboardItem = some clip →
      resolvePasteDestinationPath st ≠ [] →
      isRecycleBinPath (resolvePasteDestinationPath st) = false →
      isSavedVirtualItemPath clip.path = true →
      isSavedVirtualFolderPath (resolvePasteDestinationPath st) = true →
      (handlePaste st (Except.error ())).1 = st ∧
      ∃ c, (handlePaste st (Except.error ())).2 =
        [HStep.invoke c, HStep.toastError]) := by
  refine ⟨?_, ?_, ?_⟩
  · intro st t ht _hs
    simp only [handleDelete, ht]
    exact ⟨trivial, ⟨_, rfl⟩⟩
  · intro st f hf hval hdiff hs
    simp only [handleConfirmRename, hf]
    rw [if_neg hval, if_neg hdiff, if_pos hs]
    exact ⟨rfl, ⟨_, rfl⟩⟩
  · intro st clip hclip hne hrb hsrc hdest
    simp only [handlePaste, hclip]
    rw [if_neg hne, if_neg (by simp [hrb]), if_pos (by simp [hsrc]),
      if_neg (by simp [hsrc, hdest])]
    exact ⟨rfl, ⟨_, rfl⟩⟩

/-- C10 witness: each of the three handlers, run on a concrete state with a
rejected backend reply, returns the state unchanged. -/
theorem mutation_failure_leaves_state_unchanged_witness :
    (handleDelete wDelState (Except.error ())).1 = wDelState ∧
    (handleConfirmRename wRenState (Except.error ())).1 = wRenState ∧
    (handlePaste wPasteState (Except.error ())).1 = wPasteState :=
  ⟨(mutation_failure_leaves_state_unchanged.1 wDelState wFile (by decide)
      (by decide)).1,
   (mutation_failure_leaves_state_unchanged.2.1 wRenState wFile (by decide)
      (by decide) (by decide) (by decide)).1,
   (mutation_failure_leaves_state_unchanged.2.2 wPasteState wClip (by decide)
      (by decide) (by decide) (by decide) (by decide)).1⟩

/-- C5: `loadAllSavedItems(path)` always replaces the cache entry for `path`
with a complete snapshot (`isCompleteSnapshot = true`, `hasMore = false`,
`nextOffset` = item count) that it also displays; within the startup sync it
is triggered exactly when indexing reported new data or the active path's
entry is absent or not a complete snapshot; and a non-forced
`loadDirectory(path)` over a cached complete snapshot serves the cached
items without issuing any listing fetch. -/
theorem upgrade_to_full_snapshot :
    (∀ (st : ExplorerState) (path : Str) (items : List TelegramSavedItem),
      ∃ st1, (loadAllSavedItems st path (Except.ok items)).1 = some st1 ∧
        lookupCache st1.savedPathCache path = some
          { items := items.map savedItemToFileItem,
            nextOffset := (items.map savedItemToFileItem).length,
            hasMore := false, isCompleteSnapshot := true } ∧
        st1.files = items.map savedItemToFileItem ∧
        st1.savedItemsOffset = (items.map savedItemToFileItem).length ∧
        st1.hasMoreSavedItems = false) ∧
    (∀ (st : ExplorerState) (idxRes : Option TelegramIndexSavedMessagesResult)
        (fullRes : Except Unit (List TelegramSavedItem)),
      "tg://saved".data.isPrefixOf st.currentPath = true →
      ((HStep.invoke (Cmd.tgListSavedItems (virtualToSavedPath st.currentPath)) ∈
          (runSavedMessageSync st idxRes fullRes).2) ↔
        (0 < (match idxRes with
              | some r => r.total_new_messages
              | none => 0) ∨
          ¬ ∃ e, lookupCache st.savedPathCache st.currentPath = some e ∧
            e.isCompleteSnapshot = true))) ∧
    (∀ (st : ExplorerState) (path : Str) (e : SavedPathCacheEntry)
        (pageRes : Except Unit TelegramSavedItemsPage)
        (fullRes : Except Unit (List TelegramSavedItem))
        (realRes : Except Unit (List FileEntry)),
      "tg://saved".data.isPrefixOf path = true →
      lookupCache st.savedPathCache path = some e →
      e.isCompleteSnapshot = true →
      (loadDirectory st path false pageRes fullRes realRes).1.files = e.items ∧
      (∀ fp off lim, HStep.invoke (Cmd.tgListSavedItemsPage fp off lim) ∉
          (loadDirectory st path false pageRes fullRes realRes).2) ∧
      (∀ fp, HStep.invoke (Cmd.tgListSavedItems fp) ∉
          (loadDirectory st path false pageRes fullRes realRes).2)) := by
  refine ⟨?_, ?_, ?_⟩
  · intro st path items
    simp only [loadAllSavedItems]
    obtain ⟨hc, hf, ho, hm, -, -⟩ := prefetchThumbnailsForItems_state
      { st with
        files := items.map savedItemToFileItem
        savedItemsOffset := (items.map savedItemToFileItem).length
        hasMoreSavedItems := false
        currentPath := path
        savedPathCache := cacheSavedPath st.savedPathCache path
          (items.map savedItemToFileItem) (items.map savedItemToFileItem).length
          false true }
      (items.map savedItemToFileItem)
    refine ⟨_, rfl, ?_, ?_, ?_⟩
    · rw [hc]
      exact lookupCache_cacheSavedPath _ _ _ _ _ _
    · rw [hf]
    · rw [ho, hm]
      exact ⟨rfl, rfl⟩
  · intro st idxRes fullRes hsaved
    rcases idxRes with _ | r
    · simp only [runSavedMessageSync]
      by_cases hS : ((0:Nat) < 0 ∨
          ¬ ∃ e, lookupCache st.savedPathCache st.currentPath = some e ∧
            e.isCompleteSnapshot = true)
      · rw [if_pos hsaved, if_pos hS]
        apply iff_of_true _ hS
        rcases hfull : loadAllSavedItems _ st.currentPath fullRes with ⟨ost, steps⟩
        have hmem := loadAllSavedItems_head _ _ _ _ _ hfull
        rcases ost with _ | st2 <;> exact List.mem_cons_of_mem _ hmem
      · rw [if_pos hsaved, if_neg hS]
        apply iff_of_false _ hS
        simp
    · simp only [runSavedMessageSync]
      by_cases h0 : 0 < r.total_new_messages
      · rw [if_pos h0]
        by_cases hS : (0 < r.total_new_messages ∨
            ¬ ∃ e, lookupCache st.savedPathCache st.currentPath = some e ∧
              e.isCompleteSnapshot = true)
        · rw [if_pos hsaved, if_pos hS]
          apply iff_of_true _ hS
          rcases hfull : loadAllSavedItems _ st.currentPath fullRes with ⟨ost, steps⟩
          have hmem := loadAllSavedItems_head _ _ _ _ _ hfull
          rcases ost with _ | st2 <;> exact List.mem_cons_of_mem _ hmem
        · exact absurd (Or.inl h0) hS
      · rw [if_neg h0]
        by_cases hS : (0 < r.total_new_messages ∨
            ¬ ∃ e, lookupCache st.savedPathCache st.currentPath = some e ∧
              e.isCompleteSnapshot = true)
        · rw [if_pos hsaved, if_pos hS]
          apply iff_of_true _ hS
          rcases hfull : loadAllSavedItems _ st.currentPath fullRes with ⟨ost, steps⟩
          have hmem := loadAllSavedItems_head _ _ _ _ _ hfull
          rcases ost with _ | st2 <;> exact List.mem_cons_of_mem _ hmem
        · rw [if_pos hsaved, if_neg hS]
          apply iff_of_false _ hS
          simp
  · intro st path e pageRes fullRes realRes hsaved hlook hsnap
    obtain ⟨hf, -, -, -, -, hsync⟩ := applySavedPathCache_hit st path e hlook
    have hcond : ¬ ((applySavedPathCache st path).1.isSavedSyncComplete ∧
        e.isCompleteSnapshot = false) := by
      intro hcontra
      rw [hsnap] at hcontra
      exact absurd hcontra.2 (by decide)
    simp only [loadDirectory]
    rw [if_pos ⟨hsaved, trivial⟩, hlook]
    dsimp only
    rw [if_neg hcond]
    refine ⟨hf, ?_, ?_⟩
    · intro fp off lim
      rcases applySavedPathCache_steps st path with hsteps | ⟨ids, hsteps⟩ <;>
        simp [hsteps]
    · intro fp
      rcases applySavedPathCache_steps st path with hsteps | ⟨ids, hsteps⟩ <;>
        simp [hsteps]

/-- A cached complete-snapshot entry used by the C5 witness. -/
def wSnapshotEntry : SavedPathCacheEntry :=
  { items := [wFile], nextOffset := 1, hasMore := false, isCompleteSnapshot := true }

/-- State whose root path has a cached complete snapshot. -/
def wSnapshotState : ExplorerState :=
  { initialExplorerState with
    savedPathCache := [("tg://saved".data, wSnapshotEntry)] }

/-- C5 witness: the startup sync triggers the full fetch at the fresh
initial state (no snapshot cached yet), and a non-forced `loadDirectory`
over a cached complete snapshot serves the cached items. -/
theorem upgrade_to_full_snapshot_witness :
    (HStep.invoke (Cmd.tgListSavedItems
        (virtualToSavedPath initialExplorerState.currentPath)) ∈
      (runSavedMessageSync initialExplorerState
        (some { total_new_messages := 1 }) (Except.ok [])).2) ∧
    (loadDirectory wSnapshotState "tg://saved".data false (Except.error ())
        (Except.error ()) (Except.error ())).1.files = wSnapshotEntry.items :=
  ⟨(upgrade_to_full_snapshot.2.1 initialExplorerState
      (some { total_new_messages := 1 }) (Except.ok []) (by decide)).mpr
      (Or.inl (by decide)),
   (upgrade_to_full_snapshot.2.2 wSnapshotState "tg://saved".data wSnapshotEntry
      (Except.error ()) (Except.error ()) (Except.error ()) (by decide) (by decide)
      (by decide)).1⟩

/-- A backend row used by the C4 counterexample trace. -/
def staleOffsetItemA : TelegramSavedItem :=
  { chat_id := 1, message_id := 7, thumbnail := none, file_type := "document".data,
    file_unique_id := "ua".data, file_size := 1, file_name := "a.txt".data,
    file_caption := none, file_path := "/Home".data, modified_date := "d".data,
    owner_id := "o".data }

/-- A second backend row. -/
def staleOffsetItemB : TelegramSavedItem :=
  { staleOffsetItemA with
    message_id := 8,
    file_unique_id := "ub".data,
    file_name := "b.txt".data }

/-- First page served during initial pagination: more data follows. -/
def staleOffsetPage1 : TelegramSavedItemsPage :=
  { items := [staleOffsetItemA], has_more := true, next_offset := 50 }

/-- Page later served for the retried scroll fetch. -/
def staleOffsetPage2 : TelegramSavedItemsPage :=
  { items := [staleOffsetItemB], has_more := true, next_offset := 50 }

/-- The state reached by: the startup sync begins (backfill running), the
initial `loadDirectory("tg://saved")` page fetch succeeds (caching
`nextOffset = 50`), then a forced reload's page fetch fails — leaving
`savedItemsOffset = 0` while the untouched cache entry still says
`nextOffset = 50`. -/
def staleOffsetState : ExplorerState :=
  (loadDirectory
    (loadDirectory (beginSavedMessageSync initialExplorerState) "tg://saved".data
      false (Except.ok staleOffsetPage1) (Except.error ()) (Except.error ())).1
    "tg://saved".data true (Except.error ()) (Except.error ()) (Except.error ())).1

/-- C4 counterexample: the claim says a fetched page is merged into the
displayed and cached list only when requested at the path's cached
`nextOffset`.  In `staleOffsetState` — reachable by an initial page load
followed by a failed forced reload while the backfill is still running —
the cached `nextOffset` is `50` but `savedItemsOffset` was reset to `0`;
the next `loadMoreSavedItems` then fetches offset `0` and appends the page
to the still-displayed old list. -/
theorem page_merge_discipline_counterexample :
    ((lookupCache staleOffsetState.savedPathCache staleOffsetState.currentPath).map
        (fun e => e.nextOffset) = some 50 ∧
      staleOffsetState.savedItemsOffset = 0 ∧
      staleOffsetState.files ≠ [] ∧
      staleOffsetPage2.items ≠ [] ∧
      (loadMoreSavedItems staleOffsetState 1000 (Except.ok staleOffsetPage2)).1.files =
        staleOffsetState.files ++ staleOffsetPage2.items.map savedItemToFileItem) ∧
    ¬ (∀ (st : ExplorerState) (now : Nat) (r : TelegramSavedItemsPage),
        (loadMoreSavedItems st now (Except.ok r)).1.files =
            st.files ++ r.items.map savedItemToFileItem →
        st.files ≠ [] → r.items ≠ [] →
        (lookupCache st.savedPathCache st.currentPath).map
            (fun e => e.nextOffset) = some st.savedItemsOffset) := by
  refine ⟨by decide, fun h => ?_⟩
  exact absurd
    (h staleOffsetState 1000 staleOffsetPage2 (by decide) (by decide) (by decide))
    (by decide)

/-- C4 (amended): `loadMoreSavedItems` always requests the stored
`savedItemsOffset` with `append = true` and merges by appending the fetched
page to the displayed list (so the merge offset equals the cached
`nextOffset` whenever the stored offset agrees with it); every successful
page load, full load, or cache application re-establishes that agreement
for the current path; and every paginated fetch issued by `loadDirectory`
requests offset `0` (with `append = false`, replacing the list).  A failed
forced reload, however, can leave a cache entry whose `nextOffset` differs
from the reset stored offset, so the agreement is an invariant of
successful loads, not of every reachable state. -/
theorem page_merge_discipline :
    (∀ (st : ExplorerState) (now : Nat) (pageRes : Except Unit TelegramSavedItemsPage),
      "tg://saved".data.isPrefixOf st.currentPath = true →
      250 ≤ now - st.savedLoadMoreLastAttempt →
      st.isLoading = false → st.isLoadingMoreSavedItems = false →
      st.isSavedSyncComplete = false →
      (st.hasMoreSavedItems = true ∨ st.isSavedBackfillSyncing = true) →
      (∃ rest, (loadMoreSavedItems st now pageRes).2 =
        HStep.invoke (Cmd.tgListSavedItemsPage (virtualToSavedPath st.currentPath)
          st.savedItemsOffset SAVED_ITEMS_PAGE_SIZE) :: rest) ∧
      (∀ r, pageRes = Except.ok r →
        (loadMoreSavedItems st now pageRes).1.files =
          st.files ++ r.items.map savedItemToFileItem)) ∧
    ((∀ (st : ExplorerState) (path : Str) (off : Nat) (append : Bool)
        (r : TelegramSavedItemsPage) (st1 : ExplorerState) (steps : List HStep),
      loadSavedItemsPage st path off append (Except.ok r) = (some st1, steps) →
      ∃ e, lookupCache st1.savedPathCache st1.currentPath = some e ∧
        st1.savedItemsOffset = e.nextOffset) ∧
    (∀ (st : ExplorerState) (path : Str) (items : List TelegramSavedItem)
        (st1 : ExplorerState) (steps : List HStep),
      loadAllSavedItems st path (Except.ok items) = (some st1, steps) →
      ∃ e, lookupCache st1.savedPathCache st1.currentPath = some e ∧
        st1.savedItemsOffset = e.nextOffset) ∧
    (∀ (st : ExplorerState) (path : Str) (e : SavedPathCacheEntry),
      lookupCache st.savedPathCache path = some e →
      (applySavedPathCache st path).1.savedItemsOffset = e.nextOffset ∧
      lookupCache (applySavedPathCache st path).1.savedPathCache
        (applySavedPathCache st path).1.currentPath = some e)) ∧
    (∀ (st : ExplorerState) (path : Str) (force : Bool)
        (pageRes : Except Unit TelegramSavedItemsPage)
        (fullRes : Except Unit (List TelegramSavedItem))
        (realRes : Except Unit (List FileEntry)) (fp : Str) (off lim : Nat),
      HStep.invoke (Cmd.tgListSavedItemsPage fp off lim) ∈
        (loadDirectory st path force pageRes fullRes realRes).2 →
      off = 0) := by
  refine ⟨?_, ⟨?_, ?_, ?_⟩, ?_⟩
  · intro st now pageRes hsaved hdeb hload hmore hsync hcan
    simp only [loadMoreSavedItems]
    rw [if_neg (by simp [hsaved]), if_neg (by omega),
      if_neg (by simp [hload, hmore]), if_neg (by simp [hsync]),
      if_neg (by rcases hcan with h | h <;> simp [h])]
    rcases pageRes with _ | r
    · refine ⟨⟨[], ?_⟩, ?_⟩
      · simp [loadSavedItemsPage]
      · intro r hr
        exact absurd hr (by simp)
    · simp only [loadSavedItemsPage]
      refine ⟨⟨_, rfl⟩, ?_⟩
      intro r' hr'
      injection hr' with hr'
      subst hr'
      obtain ⟨hc, hf, ho, hm, hp, hs⟩ := prefetchThumbnailsForItems_state
        { st with
          savedLoadMoreLastAttempt := now
          isLoadingMoreSavedItems := true
          files := st.files ++ r.items.map savedItemToFileItem
          savedItemsOffset := r.next_offset
          hasMoreSavedItems := r.has_more
          currentPath := st.currentPath
          savedPathCache := cacheSavedPath st.savedPathCache st.currentPath
            (st.files ++ r.items.map savedItemToFileItem) r.next_offset
            r.has_more false }
        (st.files ++ r.items.map savedItemToFileItem)
      simpa using hf
  · intro st path off append r st1 steps h
    exact (loadSavedItemsPage_ok_state st path off append r st1 steps h).2.2.2
  · intro st path items st1 steps h
    exact (loadAllSavedItems_ok_state st path items st1 steps h).2
  · intro st path e hlook
    obtain ⟨-, ho, -, hp, hc, -⟩ := applySavedPathCache_hit st path e hlook
    rw [ho, hc, hp]
    exact ⟨rfl, hlook⟩
  · intro st path force pageRes fullRes realRes fp off lim hmem
    simp only [loadDirectory] at hmem
    by_cases hcond : ("tg://saved".data.isPrefixOf path) ∧ force = false
    · rw [if_pos hcond] at hmem
      rcases hlook : lookupCache st.savedPathCache path with _ | e
      · rw [hlook] at hmem
        dsimp only at hmem
        rw [if_pos (by simp [hcond.1])] at hmem
        by_cases hsy : st.isSavedSyncComplete = true
        · rw [if_pos (by simpa using hsy)] at hmem
          rcases hfull : loadAllSavedItems _ path fullRes with ⟨ost, steps⟩
          rw [hfull] at hmem
          have hnp := page_not_in_loadAll _ path fullRes fp off lim _ _ hfull
          rcases ost with _ | st2 <;> simp at hmem <;> exact absurd hmem hnp
        · rw [if_neg (by simpa using hsy)] at hmem
          rcases hpage : loadSavedItemsPage _ path 0 false pageRes with ⟨ost, steps⟩
          rw [hpage] at hmem
          have hoff := page_mem_loadSavedItemsPage _ path 0 false pageRes fp off
            lim _ _ hpage
          rcases ost with _ | st2 <;> simp at hmem <;> exact hoff hmem
      · rw [hlook] at hmem
        dsimp only at hmem
        by_cases hup : ((applySavedPathCache st path).1.isSavedSyncComplete ∧
            e.isCompleteSnapshot = false)
        · rw [if_pos hup] at hmem
          rcases hfull : loadAllSavedItems _ path fullRes with ⟨ost, steps⟩
          rw [hfull] at hmem
          have hnp := page_not_in_loadAll _ path fullRes fp off lim _ _ hfull
          have hnh : HStep.invoke (Cmd.tgListSavedItemsPage fp off lim) ∉
              (applySavedPathCache st path).2.1 := by
            rcases applySavedPathCache_steps st path with h | ⟨ids, h⟩ <;> simp [h]
          rcases ost with _ | st2 <;> simp at hmem <;>
            rcases hmem with hmem | hmem <;>
            first
              | exact absurd hmem hnh
              | exact absurd hmem hnp
        · rw [if_neg hup] at hmem
          have hnh : HStep.invoke (Cmd.tgListSavedItemsPage fp off lim) ∉
              (applySavedPathCache st path).2.1 := by
            rcases applySavedPathCache_steps st path with h | ⟨ids, h⟩ <;> simp [h]
          exact absurd hmem hnh
    · rw [if_neg hcond] at hmem
      by_cases hsp : "tg://saved".data.isPrefixOf path = true
      · rw [if_pos (by simpa using hsp)] at hmem
        by_cases hsy : st.isSavedSyncComplete = true
        · rw [if_pos (by simpa using hsy)] at hmem
          rcases hfull : loadAllSavedItems _ path fullRes with ⟨ost, steps⟩
          rw [hfull] at hmem
          have hnp := page_not_in_loadAll _ path fullRes fp off lim _ _ hfull
          rcases ost with _ | st2 <;> simp at hmem <;> exact absurd hmem hnp
        · rw [if_neg (by simpa using hsy)] at hmem
          rcases hpage : loadSavedItemsPage _ path 0 false pageRes with ⟨ost, steps⟩
          rw [hpage] at hmem
          have hoff := page_mem_loadSavedItemsPage _ path 0 false pageRes fp off
            lim _ _ hpage
          rcases ost with _ | st2 <;> simp at hmem <;> exact hoff hmem
      · rw [if_neg (by simpa using hsp)] at hmem
        rcases realRes with _ | entries <;> simp at hmem

/-- State about to load one more page: more items are available. -/
def wLoadMoreState : ExplorerState :=
  { initialExplorerState with hasMoreSavedItems := true }

/-- C4 witness: from a concrete paging state, `loadMoreSavedItems` issues
the fetch at the stored offset and appends the page. -/
theorem page_merge_discipline_witness :
    (∃ rest, (loadMoreSavedItems wLoadMoreState 1000 (Except.ok staleOffsetPage1)).2 =
      HStep.invoke (Cmd.tgListSavedItemsPage
        (virtualToSavedPath wLoadMoreState.currentPath)
        wLoadMoreState.savedItemsOffset SAVED_ITEMS_PAGE_SIZE) :: rest) ∧
    (loadMoreSavedItems wLoadMoreState 1000 (Except.ok staleOffsetPage1)).1.files =
      wLoadMoreState.files ++ staleOffsetPage1.items.map savedItemToFileItem :=
  ⟨(page_merge_discipline.1 wLoadMoreState 1000 (Except.ok staleOffsetPage1)
      (by decide) (by decide) (by decide) (by decide) (by decide)
      (Or.inl (by decide))).1,
   (page_merge_discipline.1 wLoadMoreState 1000 (Except.ok staleOffsetPage1)
      (by decide) (by decide) (by decide) (by decide) (by decide)
      (Or.inl (by decide))).2 staleOffsetPage1 rfl⟩

/-- C8: in every state reachable by the prefetch machine from the empty
initial state, each message id is contained in at most one outstanding
prefetch batch: `prefetchThumbnailsForItems` records a batch's ids before
starting its fetch and filters recorded ids out of later batches, and ids
are re-enabled only when the fetch containing them fails. -/
theorem prefetch_at_most_one_outstanding (events : List PrefetchEvent) (idv : Nat) :
    countContaining idv (runPrefetch events).outstanding ≤ 1 := by
  have hInv : PrefetchInv (runPrefetch events) :=
    foldl_prefetchStep_inv events _
      ⟨fun i => by simp [countContaining], fun b hb => by simp at hb⟩
  exact hInv.1 idv

/-- File with a broken data-URL thumbnail used by the C7 counterexample. -/
def brokenThumbFile : FileItem :=
  { name := "f".data, path := "tg://msg/5".data, isDirectory := false,
    messageId := some 5, thumbnail := some "data:x".data }

/-- C7 counterexample trace: the grid item for `brokenThumbFile` is mounted,
reports a failed render (triggering a retry that returns no thumbnail), is
unmounted and remounted — three times within one session. -/
def thumbRetryCexTrace : List ThumbEvent :=
  [ThumbEvent.gridMount brokenThumbFile, ThumbEvent.gridImgError (Except.ok none),
   ThumbEvent.gridUnmount, ThumbEvent.gridMount brokenThumbFile,
   ThumbEvent.gridImgError (Except.ok none), ThumbEvent.gridUnmount,
   ThumbEvent.gridMount brokenThumbFile, ThumbEvent.gridImgError (Except.ok none)]

/-- C7 counterexample: the session bound fails because the
`hasRetriedBrokenThumbnail` guard lives in component state and resets on
every remount: over `thumbRetryCexTrace` the application issues three fetch
attempts for message id 5 in one session, refuting "at most two fetch
attempts per id per session". -/
theorem thumbnail_retry_counterexample :
    fetchAttemptsFor 5 (runThumbSession thumbRetryCexTrace).2 = 3 ∧
    ¬ (∀ (events : List ThumbEvent) (mid : Nat),
        fetchAttemptsFor mid (runThumbSession events).2 ≤ 2) :=
  ⟨by decide, fun h => absurd (h thumbRetryCexTrace 5) (by decide)⟩

/-- C7 (amended): the retry bound is per grid-item mount, not per session —
within the lifetime of one mounted `FileGridItem` with an unchanged file,
at most one thumbnail refetch is issued across any sequence of failed-render
reports, and once the retry guard is set that mount never fetches again;
the guard resets on remount or when the file prop changes. -/
theorem fileGridItem_retry_per_mount (file : FileItem)
    (rs : List (Except Unit (Option Str))) :
    (runImgErrors (initFileGridItem file) rs).2.length ≤ 1 ∧
    ∀ (u : Option Str) (rs' : List (Except Unit (Option Str))),
      (runImgErrors
        { file := file, thumbUrl := u, hasRetriedBrokenThumbnail := true }
        rs').2 = [] :=
  ⟨runImgErrors_len rs (initFileGridItem file) rfl,
   fun _ rs' => runImgErrors_retried rs' _ rfl⟩

end SkyBox
